import Mathlib

set_option maxRecDepth 4000
set_option autoImplicit false

/-!
Shallow embedding of the `release-config` repository (semantic-release
configuration helper).  The definitions below are translated from the
JavaScript sources: the configuration validator `validateConfig` with its
dry-run simulation `validateUpdateVersionDryRun`, the project detector
`detectUserConfiguration` (src/index.js), and the live file patcher
`updateFile` (src/update-version.js).

JavaScript builtins are modelled explicitly:
* `String.prototype.includes` as substring search on character lists;
* `RegExp` as a small abstract syntax (`RE`) with a fuel-bounded
  backtracking matcher covering the constructs appearing in this
  repository's file-patch rules (literal characters, backslash escapes,
  `.`, capture groups, greedy `*` and lazy `*?`); capture groups under a
  star are not tracked (no rule of this repository puts a group under a
  star).  A `RegExp` value keeps its `source` text (used by the patcher's
  error message) next to its parsed form and its `g` flag;
* the filesystem as a partial map from paths to file text, threaded
  through each `fs` primitive so that read-only and writing code are
  distinguishable (path resolution against the working directory is
  abstracted away: the map is keyed by the configured path).
-/

/-- Test whether the first character list is an initial segment of the second. -/
def listLeads : List Char → List Char → Bool
  | [], _ => true
  | _ :: _, [] => false
  | a :: as, b :: bs => a == b && listLeads as bs

/-- Test whether `needle` occurs as a contiguous segment of the second list. -/
def listHasSub (needle : List Char) : List Char → Bool
  | [] => listLeads needle []
  | c :: cs => listLeads needle (c :: cs) || listHasSub needle cs

/-- JavaScript `hay.includes(needle)` for strings. -/
def strContains (hay needle : String) : Bool := listHasSub needle.data hay.data

/-- Replace every (leftmost, non-overlapping) occurrence of `pat` by `rep`;
fuel-bounded recursion on the scanned list. -/
def replaceAllL (pat rep : List Char) : Nat → List Char → List Char
  | 0, s => s
  | f + 1, s =>
      if pat ≠ [] && listLeads pat s then rep ++ replaceAllL pat rep f (s.drop pat.length)
      else
        match s with
        | [] => []
        | c :: cs => c :: replaceAllL pat rep f cs

/-- JavaScript `s.replace(/pat/g, rep)` for a literal pattern `pat`. -/
def strReplaceAll (s pat rep : String) : String :=
  String.mk (replaceAllL pat.data rep.data (s.data.length + 1) s.data)

/-- JavaScript `s.startsWith(pre)`. -/
def startsWithB (s pre : String) : Bool := listLeads pre.data s.data

/-- Abstract syntax of the regular-expression subset used by this repository's
file-patch rules. -/
inductive RE where
  | emp
  | ch (c : Char)
  | any
  | cat (a b : RE)
  | grp (r : RE)
  | star (r : RE)
  | lazyStar (r : RE)
deriving Repr, DecidableEq

/-- Size of a regular expression, used to bound the matcher's fuel. -/
def reSize : RE → Nat
  | .emp => 1
  | .ch _ => 1
  | .any => 1
  | .cat a b => reSize a + reSize b + 1
  | .grp r => reSize r + 1
  | .star r => reSize r + 1
  | .lazyStar r => reSize r + 1

/-- Backtracking matcher.  `reM fuel r s` returns the candidate matches of `r`
at the start of `s` in preference order, each as the remaining input paired
with the captured character lists of the groups in opening order.  Greedy `*`
prefers longer matches, lazy `*?` prefers shorter ones; `.` does not match a
newline, as in JavaScript. -/
def reM : Nat → RE → List Char → List (List Char × List (List Char))
  | 0, _, _ => []
  | _ + 1, .emp, s => [(s, [])]
  | _ + 1, .ch _, [] => []
  | _ + 1, .ch c, x :: xs => if x == c then [(xs, [])] else []
  | _ + 1, .any, [] => []
  | _ + 1, .any, x :: xs => if x == '\n' then [] else [(xs, [])]
  | f + 1, .cat a b, s =>
      (reM f a s).flatMap (fun p => (reM f b p.1).map (fun q => (q.1, p.2 ++ q.2)))
  | f + 1, .grp r, s =>
      (reM f r s).map (fun p => (p.1, s.take (s.length - p.1.length) :: p.2))
  | f + 1, .star r, s =>
      ((reM f r s).flatMap (fun p =>
        if p.1.length < s.length then
          (reM f (.star r) p.1).map (fun q => (q.1, ([] : List (List Char))))
        else [])) ++ [(s, [])]
  | f + 1, .lazyStar r, s =>
      (s, ([] : List (List Char))) :: (reM f r s).flatMap (fun p =>
        if p.1.length < s.length then
          (reM f (.lazyStar r) p.1).map (fun q => (q.1, ([] : List (List Char))))
        else [])

/-- Fuel bound sufficient for `reM` on input `s`. -/
def reFuel (r : RE) (s : List Char) : Nat := (reSize r + 2) * (s.length + 2)

/-- Information about one regex match inside a character list. -/
structure MatchInfo where
  pre : List Char
  matched : List Char
  caps : List String
  rest : List Char
deriving Repr, DecidableEq

/-- Preferred match of `r` anchored at the start of `s`. -/
def reMatchHere (r : RE) (s : List Char) : Option (List Char × List String × List Char) :=
  match reM (reFuel r s) r s with
  | [] => none
  | p :: _ => some (s.take (s.length - p.1.length), p.2.map (fun l => String.mk l), p.1)

/-- Leftmost match of `r` inside `s` (JavaScript regex search). -/
def searchRE (r : RE) : List Char → Option MatchInfo
  | [] =>
      match reMatchHere r [] with
      | some (m, caps, rest) => some { pre := [], matched := m, caps := caps, rest := rest }
      | none => none
  | c :: cs =>
      match reMatchHere r (c :: cs) with
      | some (m, caps, rest) => some { pre := [], matched := m, caps := caps, rest := rest }
      | none =>
          (searchRE r cs).map (fun info => { info with pre := c :: info.pre })

/-- JavaScript replacement-template application: `$1`..`$9` insert captures
(kept literally when the group does not exist), `$$` inserts `$`, `$&` inserts
the whole match; every other character is copied. -/
def applyTemplate (matched : List Char) (caps : List String) : List Char → List Char
  | [] => []
  | '$' :: '$' :: rest => '$' :: applyTemplate matched caps rest
  | '$' :: '&' :: rest => matched ++ applyTemplate matched caps rest
  | '$' :: c :: rest =>
      if c.isDigit && c != '0' then
        match caps.get? (c.toNat - '0'.toNat - 1) with
        | some cap => cap.data ++ applyTemplate matched caps rest
        | none => '$' :: c :: applyTemplate matched caps rest
      else '$' :: c :: applyTemplate matched caps rest
  | c :: rest => c :: applyTemplate matched caps rest

/-- Model of a JavaScript `RegExp` value: its `source` text, its parsed form,
and whether the `g` flag is set. -/
structure JsRegex where
  src : String
  ast : RE
  global : Bool
deriving Repr, DecidableEq

/-- JavaScript `content.match(regex)` viewed as a boolean: does any match
exist?  (`match` returns `null` exactly when there is no match, for both
global and non-global regexes.) -/
def jsTest (r : JsRegex) (content : String) : Bool :=
  (searchRE r.ast content.data).isSome

/-- Repeated replacement for a global regex; on an empty match JavaScript
advances by one character. -/
def jsReplaceAllAux (r : RE) (tmpl : String) : Nat → List Char → List Char
  | 0, s => s
  | f + 1, s =>
      match searchRE r s with
      | none => s
      | some info =>
          let out := applyTemplate info.matched info.caps tmpl.data
          match info.matched, info.rest with
          | [], [] => info.pre ++ out
          | [], c :: cs => info.pre ++ out ++ c :: jsReplaceAllAux r tmpl f cs
          | _ :: _, rest => info.pre ++ out ++ jsReplaceAllAux r tmpl f rest

/-- JavaScript `content.replace(regex, template)`: all occurrences when the
`g` flag is set, otherwise only the first. -/
def jsReplace (r : JsRegex) (content tmpl : String) : String :=
  if r.global then
    String.mk (jsReplaceAllAux r.ast tmpl (content.data.length + 1) content.data)
  else
    match searchRE r.ast content.data with
    | none => content
    | some info =>
        String.mk (info.pre ++ applyTemplate info.matched info.caps tmpl.data ++ info.rest)

/-- Parser for the regular-expression subset, modelling `new RegExp(s)`:
backslash escapes, `.`, capture groups, greedy `*` and lazy `*?`.  Constructs
outside the subset yield `none`, modelled as a construction failure. -/
def parseSeq : Nat → List Char → Option (RE × List Char)
  | 0, _ => none
  | _ + 1, [] => some (.emp, [])
  | _ + 1, ')' :: cs => some (.emp, ')' :: cs)
  | f + 1, c :: cs =>
      let atomRes : Option (RE × List Char) :=
        if c == '\\' then
          match cs with
          | [] => none
          | e :: cs' => some (.ch e, cs')
        else if c == '.' then some (.any, cs)
        else if c == '(' then
          match parseSeq f cs with
          | some (r, ')' :: rest') => some (.grp r, rest')
          | _ => none
        else if c == '*' || c == '+' || c == '?' || c == '|' || c == '[' ||
                c == ']' || c == '^' || c == '$' || c == '{' || c == '}' then none
        else some (.ch c, cs)
      match atomRes with
      | none => none
      | some (atom, rest) =>
          let piece : RE × List Char :=
            match rest with
            | '*' :: '?' :: r2 => (.lazyStar atom, r2)
            | '*' :: r2 => (.star atom, r2)
            | _ => (atom, rest)
          match parseSeq f piece.2 with
          | none => none
          | some (tail, rest3) => some (.cat piece.1 tail, rest3)

/-- Parse a whole pattern string, or fail. -/
def parseRE (s : String) : Option RE :=
  match parseSeq (s.length + 1) s.data with
  | some (r, []) => some r
  | _ => none

/-- Convenience: the regular expression matching a literal string. -/
def reOfString (s : String) : RE :=
  s.data.foldr (fun c acc => RE.cat (.ch c) acc) .emp

/-- JavaScript `${regexObj}` rendering: `/source/flags`. -/
def showRegex (r : JsRegex) : String :=
  "/" ++ r.src ++ "/" ++ (if r.global then "g" else "")

/-- Filesystem model: a partial map from (working-directory relative) paths to
file text. -/
abbrev FS := String → Option String

/-- Model of `fs.existsSync`: a read, the filesystem is returned unchanged. -/
def fsExistsSync (fs : FS) (p : String) : FS × Bool := (fs, (fs p).isSome)

/-- Model of `fs.readFileSync`: a read, the filesystem is returned unchanged. -/
def fsReadFileSync (fs : FS) (p : String) : FS × Option String := (fs, fs p)

/-- Model of `fs.writeFileSync`: updates the map at the written path. -/
def fsWriteFileSync (fs : FS) (p c : String) : FS :=
  fun q => if q = p then some c else fs q

/-- A file rule's `pattern` (or a patterns entry's `regex`) field: either a
pattern string or a `RegExp` value.  Other value kinds do not occur in this
repository's configurations. -/
inductive PatternVal where
  | str (s : String)
  | re (r : JsRegex)
deriving Repr, DecidableEq

/-- JavaScript truthiness of an optional pattern field: `""` is falsy, a
`RegExp` object is truthy, an absent field is falsy. -/
def patTruthy : Option PatternVal → Bool
  | some (.str s) => s ≠ ""
  | some (.re _) => true
  | none => false

/-- JavaScript truthiness of an optional string field. -/
def optStrTruthy : Option String → Bool
  | some s => s ≠ ""
  | none => false

/-- One entry of a file rule's `patterns` array. -/
structure PatternEntry where
  regex : Option PatternVal := none
  replacement : Option String := none
deriving Repr, DecidableEq

/-- A duck-typed array field: absent (or falsy), a truthy non-array value, or
an actual array. -/
inductive ArrField (α : Type) where
  | absent
  | notArray
  | arr (l : List α)
deriving Repr, DecidableEq

/-- JavaScript `Array.isArray`. -/
def ArrField.isArr {α : Type} : ArrField α → Bool
  | .arr _ => true
  | _ => false

/-- The elements of an array field (empty when not an array). -/
def ArrField.list {α : Type} : ArrField α → List α
  | .arr l => l
  | _ => []

/-- One file configuration of an update-version plugin.  `extraProps` holds
the names of own properties outside the recognised four (their values are
never read by the sources). -/
structure FileConfig where
  path : Option String := none
  pattern : Option PatternVal := none
  replacement : Option String := none
  patterns : ArrField PatternEntry := .absent
  extraProps : List String := []
deriving Repr, DecidableEq

/-- The options object of a plugin entry (`plugin[1]`); only the fields the
validator reads are modelled. -/
structure PluginOpts where
  npmPublish : Option Bool := none
  files : ArrField FileConfig := .absent
deriving Repr, DecidableEq

/-- A plugin entry: a bare name string, or an array `[name, options]` (`head`
is `p[0]`, absent for an empty array; `opts` is `p[1]`, absent when missing or
falsy). -/
inductive Plugin where
  | name (s : String)
  | arr (head : Option String) (opts : Option PluginOpts)
deriving Repr, DecidableEq

/-- A branches entry: a name string or an object with a `name` field. -/
inductive BranchVal where
  | str (s : String)
  | obj (name : Option String)
deriving Repr, DecidableEq

/-- A release configuration object. -/
structure Config where
  branches : ArrField BranchVal := .absent
  plugins : ArrField Plugin := .absent
deriving Repr, DecidableEq

/-- The value passed to (or loaded by) the validator: a configuration object,
or a falsy / non-object value. -/
inductive ConfigValue where
  | obj (c : Config)
  | nonObject
deriving Repr, DecidableEq

/-- The validator's first argument: a configuration value or a file path. -/
inductive ConfigInput where
  | value (v : ConfigValue)
  | filePath (p : String)
deriving Repr, DecidableEq

/-- Validation options with their source defaults. -/
structure ValidateOptions where
  strict : Bool := false
  checkPlugins : Bool := true
  verbose : Bool := false
deriving Repr, DecidableEq

/-- The `summary` record built at the end of `validateConfig`. -/
structure Summary where
  hasValidStructure : Bool := false
  branchCount : Nat := 0
  pluginCount : Nat := 0
  hasNpmPlugin : Bool := false
  hasGitPlugin : Bool := false
  hasGitHubPlugin : Bool := false
deriving Repr, DecidableEq

/-- The result object of `validateConfig`. -/
structure ValidationResult where
  isValid : Bool := true
  errors : List String := []
  warnings : List String := []
  suggestions : List String := []
  summary : Summary := {}
deriving Repr, DecidableEq

/-- The result object of `validateUpdateVersionDryRun`. -/
structure DryRunResult where
  success : Bool := true
  errors : List String := []
  warnings : List String := []
  replacements : Nat := 0
deriving Repr, DecidableEq

/-- Common prefix of the per-rule diagnostic messages. -/
def ruleTag (pn fn : Nat) : String :=
  "update-version plugin #" ++ toString pn ++ ", file #" ++ toString fn

/-- Prefix of the per-pattern diagnostic messages. -/
def patTag (pn fn k : Nat) : String :=
  ruleTag pn fn ++ ", pattern #" ++ toString k

def msgFilesNotArray (pn : Nat) : String :=
  "update-version plugin #" ++ toString pn ++ ": \"files\" must be an array"

def msgMissingPath (pn fn : Nat) : String :=
  ruleTag pn fn ++ ": missing required \"path\" property"

/-- Typo suggestions collected for an unknown property name (source lines
296-300). -/
def typoSuggestionList (prop : String) : List String :=
  (if strContains prop "path" then ["path"] else []) ++
  (if strContains prop "pattern" then ["pattern", "patterns"] else []) ++
  (if strContains prop "replacement" then ["replacement"] else [])

/-- The suggestion text appended to an unknown-property error. -/
def typoSuggestionText (prop : String) : String :=
  let l := typoSuggestionList prop
  if l.length > 0 then " Did you mean: " ++ String.intercalate ", " l ++ "?" else ""

def msgUnknownProp (pn fn : Nat) (prop : String) : String :=
  ruleTag pn fn ++ ": unknown property \"" ++ prop ++ "\"." ++ typoSuggestionText prop

def msgFormat (pn fn : Nat) : String :=
  ruleTag pn fn ++
    ": must have either \"patterns\" array or both \"pattern\" and \"replacement\" properties"

def msgMissingRegex (pn fn k : Nat) : String :=
  patTag pn fn k ++ ": missing required \"regex\" property"

def msgMissingRepl (pn fn k : Nat) : String :=
  patTag pn fn k ++ ": missing required \"replacement\" property"

def msgNotFound (pn fn : Nat) (p : String) : String :=
  ruleTag pn fn ++ ": target file not found: " ++ p

def msgCannotRead (pn fn : Nat) (p : String) : String :=
  ruleTag pn fn ++ ": cannot read file " ++ p ++ ": read error"

def msgInvalidRegex (pn fn k : Nat) : String :=
  patTag pn fn k ++ ": invalid regex"

def msgRegexError (pn fn k : Nat) (m : String) : String :=
  patTag pn fn k ++ ": regex error - " ++ m

def msgNoMatch (pn fn k : Nat) : String :=
  patTag pn fn k ++ ": regex pattern does not match any content in the file"

def msgNoChanges (pn fn k : Nat) : String :=
  patTag pn fn k ++ ": pattern matches but replacement produces no changes"

def msgUnreplaced (pn fn k : Nat) : String :=
  patTag pn fn k ++ ": replacement still contains unreplaced placeholders"

def msgDryRunOk (pn fn n : Nat) : String :=
  ruleTag pn fn ++ ": dry-run successful - " ++ toString n ++ " pattern(s) would match"

/-- Placeholder substitution applied to a replacement string, in source order
(`{version}`, then `{datetime}`, then the backward-compatible `${version}` and
`${date}`); each step replaces every occurrence. -/
def substPlaceholders (version datetime repl : String) : String :=
  strReplaceAll (strReplaceAll (strReplaceAll (strReplaceAll repl "{version}" version)
    "{datetime}" datetime) "${version}" version) "${date}" datetime

/-- Mock version used by the dry-run. -/
def mockVersion : String := "1.2.3"

/-- Mock datetime used by the dry-run. -/
def mockDatetime : String := "2024-01-01T12:00:00.000Z"

/-- Dry-run processing of one pattern after the regex object has been
obtained: prepare the test replacement, test the match, and record the
warning or replacement (source lines 461-496). -/
def dryRunTest (content : String) (pn fn k : Nat) (rgx : JsRegex)
    (replField : Option String) (acc : DryRunResult) : DryRunResult :=
  match replField with
  | none =>
      { acc with
        errors := acc.errors ++ [msgRegexError pn fn k "repl.replace is not a function"],
        success := false }
  | some repl =>
      let finalReplacement := substPlaceholders mockVersion mockDatetime repl
      if jsTest rgx content = false then
        { acc with warnings := acc.warnings ++ [msgNoMatch pn fn k] }
      else
        let testContent := jsReplace rgx content finalReplacement
        if testContent = content then
          { acc with warnings := acc.warnings ++ [msgNoChanges pn fn k] }
        else
          let acc := { acc with replacements := acc.replacements + 1 }
          if strContains finalReplacement "{version}" ||
              strContains finalReplacement "{datetime}" then
            { acc with warnings := acc.warnings ++ [msgUnreplaced pn fn k] }
          else acc

/-- One iteration of the dry-run pattern loop: coerce a string pattern with
`new RegExp(regex, 'g')` (a construction failure is the caught `regex error`),
report `invalid regex` when the field holds no `RegExp`, then test. -/
def dryRunPatStep (content : String) (pn fn k : Nat) (pat : PatternEntry)
    (acc : DryRunResult) : DryRunResult :=
  match pat.regex with
  | some (.str s) =>
      match parseRE s with
      | none =>
          { acc with
            errors := acc.errors ++
              [msgRegexError pn fn k ("Invalid regular expression: /" ++ s ++ "/")],
            success := false }
      | some a => dryRunTest content pn fn k { src := s, ast := a, global := true } pat.replacement acc
  | some (.re r) => dryRunTest content pn fn k r pat.replacement acc
  | none =>
      { acc with errors := acc.errors ++ [msgInvalidRegex pn fn k], success := false }

/-- The dry-run pattern loop (`patternsToTest.forEach`). -/
def dryRunPats (content : String) (pn fn : Nat) : Nat → List PatternEntry → DryRunResult → DryRunResult
  | _, [], acc => acc
  | k, pat :: rest, acc =>
      dryRunPats content pn fn (k + 1) rest (dryRunPatStep content pn fn (k + 1) pat acc)

/-- Model of `validateUpdateVersionDryRun`: resolve the path, fail when the
file is missing or unreadable, otherwise test each pattern against the file
content.  The filesystem is threaded through every `fs` primitive. -/
def validateUpdateVersionDryRun (fs0 : FS) (fc : FileConfig) (pn fn : Nat) :
    FS × DryRunResult :=
  let filePath := fc.path.getD ""
  let e := fsExistsSync fs0 filePath
  if e.2 = false then
    (e.1, { success := false, errors := [msgNotFound pn fn filePath],
            warnings := [], replacements := 0 })
  else
    let rd := fsReadFileSync e.1 filePath
    match rd.2 with
    | none =>
        (rd.1, { success := false, errors := [msgCannotRead pn fn filePath],
                 warnings := [], replacements := 0 })
    | some content =>
        let patternsToTest : List PatternEntry :=
          if fc.patterns.isArr then fc.patterns.list
          else if patTruthy fc.pattern && optStrTruthy fc.replacement then
            [{ regex := fc.pattern, replacement := fc.replacement }]
          else []
        (rd.1, dryRunPats content pn fn 0 patternsToTest {})

/-- Push an error; every error push in `validateConfig` also marks the result
invalid. -/
def pushErr (m : String) (r : ValidationResult) : ValidationResult :=
  { r with errors := r.errors ++ [m], isValid := false }

/-- Push a warning. -/
def pushWarn (m : String) (r : ValidationResult) : ValidationResult :=
  { r with warnings := r.warnings ++ [m] }

/-- Push a suggestion. -/
def pushSugg (m : String) (r : ValidationResult) : ValidationResult :=
  { r with suggestions := r.suggestions ++ [m] }

/-- Branch validation (source lines 214-222). -/
def branchesCheck (cfg : Config) (r : ValidationResult) : ValidationResult :=
  match cfg.branches with
  | .absent => pushWarn "No branches specified, semantic-release will use defaults" r
  | .notArray => pushErr "Branches must be an array" r
  | .arr l => if l.length = 0 then pushErr "At least one branch must be specified" r else r

/-- Plugin-list validation (source lines 225-234). -/
def pluginsCheck (cfg : Config) (r : ValidationResult) : ValidationResult :=
  match cfg.plugins with
  | .absent => pushErr "No plugins specified" r
  | .notArray => pushErr "Plugins must be an array" r
  | .arr l => if l.length = 0 then pushErr "At least one plugin must be specified" r else r

/-- `p => Array.isArray(p) ? p[0] : p` from the plugin-name mapping. -/
def pluginHead : Plugin → Option String
  | .name s => some s
  | .arr h _ => h

def requiredPluginNames : List String :=
  ["@semantic-release/commit-analyzer", "@semantic-release/release-notes-generator"]

/-- Warn about each missing required plugin (source lines 245-249). -/
def requiredWarnStep (names : List (Option String)) (r : ValidationResult) : ValidationResult :=
  requiredPluginNames.foldl
    (fun acc req =>
      if names.contains (some req) then acc
      else pushWarn ("Missing recommended plugin: " ++ req) acc) r

/-- Predicate of the `@semantic-release/npm` find (source lines 252-254). -/
def isNpmEntry : Plugin → Bool
  | .name s => s = "@semantic-release/npm"
  | .arr (some h) _ => h = "@semantic-release/npm"
  | .arr none _ => false

/-- Suggest an explicit `npmPublish` option (source lines 256-261). -/
def npmSuggestStep (ps : List Plugin) (r : ValidationResult) : ValidationResult :=
  match ps.find? (fun p => isNpmEntry p) with
  | some (.arr _ (some opts)) =>
      if opts.npmPublish = none then
        pushSugg "Consider explicitly setting npmPublish option for @semantic-release/npm plugin" r
      else r
  | _ => r

/-- Predicate of the update-version plugin filter (source lines 264-266). -/
def isUpdateVersionEntry : Plugin → Bool
  | .arr (some h) _ => h ≠ "" && strContains h "update-version.js"
  | _ => false

def validPropNames : List String := ["path", "pattern", "replacement", "patterns"]

/-- Record an unknown-property error with its typo suggestion. -/
def typoStep (pn fn : Nat) (prop : String) (r : ValidationResult) : ValidationResult :=
  if validPropNames.contains prop then r else pushErr (msgUnknownProp pn fn prop) r

/-- The property-name loop (`actualProps.forEach`, restricted to the unknown
properties held in `extraProps`). -/
def typoIter (pn fn : Nat) : List String → ValidationResult → ValidationResult
  | [], r => r
  | p :: rest, r => typoIter pn fn rest (typoStep pn fn p r)

/-- Per-entry checks of a `patterns` array (source lines 318-328). -/
def patsEntryStep (pn fn k : Nat) (pat : PatternEntry) (r : ValidationResult) : ValidationResult :=
  let r := if patTruthy pat.regex = false then pushErr (msgMissingRegex pn fn k) r else r
  if optStrTruthy pat.replacement = false then pushErr (msgMissingRepl pn fn k) r else r

/-- The `patterns.forEach` loop. -/
def patsIter (pn fn : Nat) : Nat → List PatternEntry → ValidationResult → ValidationResult
  | _, [], r => r
  | k, pat :: rest, r => patsIter pn fn (k + 1) rest (patsEntryStep pn fn (k + 1) pat r)

/-- Merge a dry-run result into the validation result (source lines 334-344). -/
def mergeDryRun (pn fn : Nat) (d : DryRunResult) (r : ValidationResult) : ValidationResult :=
  let r := { r with errors := r.errors ++ d.errors, warnings := r.warnings ++ d.warnings }
  if d.success = false then { r with isValid := false }
  else pushSugg (msgDryRunOk pn fn d.replacements) r

/-- The missing-`path` check of a file rule (source lines 284-287). -/
def fileRulePath (pn fn : Nat) (fc : FileConfig) (r : ValidationResult) : ValidationResult :=
  if optStrTruthy fc.path = false then pushErr (msgMissingPath pn fn) r else r

/-- The shape check of a file rule (source lines 308-314): an error exactly
when neither the patterns array nor the simple `pattern`+`replacement` pair is
present. -/
def fileRuleFormat (pn fn : Nat) (fc : FileConfig) (r : ValidationResult) : ValidationResult :=
  if fc.patterns.isArr = false && (patTruthy fc.pattern && optStrTruthy fc.replacement) = false then
    pushErr (msgFormat pn fn) r
  else r

/-- The per-entry checks of the patterns array, when present (source lines
317-329). -/
def fileRulePats (pn fn : Nat) (fc : FileConfig) (r : ValidationResult) : ValidationResult :=
  if fc.patterns.isArr then patsIter pn fn 0 fc.patterns.list r else r

/-- The dry-run invocation of a file rule (source lines 331-349): it runs only
when a path is present and at least one shape is present. -/
def fileRuleDry (fs : FS) (pn fn : Nat) (fc : FileConfig) (r : ValidationResult) :
    ValidationResult :=
  if optStrTruthy fc.path &&
      (fc.patterns.isArr || (patTruthy fc.pattern && optStrTruthy fc.replacement)) then
    mergeDryRun pn fn (validateUpdateVersionDryRun fs fc pn fn).2 r
  else r

/-- Validation of one file rule (`files.forEach` body, source lines 279-350). -/
def validateFileRule (fs : FS) (pn fn : Nat) (fc : FileConfig) (r : ValidationResult) :
    ValidationResult :=
  fileRuleDry fs pn fn fc
    (fileRulePats pn fn fc
      (fileRuleFormat pn fn fc
        (typoIter pn fn fc.extraProps
          (fileRulePath pn fn fc r))))

/-- The `files.forEach` loop. -/
def filesIter (fs : FS) (pn : Nat) : Nat → List FileConfig → ValidationResult → ValidationResult
  | _, [], r => r
  | j, fc :: rest, r => filesIter fs pn (j + 1) rest (validateFileRule fs pn (j + 1) fc r)

/-- Body of the `updateVersionPlugins.forEach` callback (source lines 268-352):
run the file checks when `plugin[1] && plugin[1].files`, reject a non-array
`files`. -/
def uvStep (fs : FS) (pn : Nat) (p : Plugin) (r : ValidationResult) : ValidationResult :=
  match p with
  | .arr _ (some opts) =>
      match opts.files with
      | .absent => r
      | .notArray => pushErr (msgFilesNotArray pn) r
      | .arr fcs => filesIter fs pn 0 fcs r
  | _ => r

/-- The `updateVersionPlugins.forEach` loop (indices are positions in the
filtered list). -/
def uvIter (fs : FS) : Nat → List Plugin → ValidationResult → ValidationResult
  | _, [], r => r
  | i, p :: rest, r => uvIter fs (i + 1) rest (uvStep fs (i + 1) p r)

/-- The `checkPlugins` block (source lines 237-353); it runs only when the
configuration's `plugins` is an actual array. -/
def pluginsBlockStep (fs : FS) (cfg : Config) (r : ValidationResult) : ValidationResult :=
  match cfg.plugins with
  | .arr ps =>
      uvIter fs 0 (ps.filter (fun p => isUpdateVersionEntry p))
        (npmSuggestStep ps (requiredWarnStep (ps.map pluginHead) r))
  | _ => r

/-- `p === name` or `Array.isArray(p) && p[0] === name`. -/
def isPluginNamed (nm : String) : Plugin → Bool
  | .name s => s = nm
  | .arr (some h) _ => h = nm
  | .arr none _ => false

/-- The summary built from the configuration (source lines 356-369);
`hasValidStructure` looks at the error list collected so far. -/
def mkSummary (cfg : Config) (r : ValidationResult) : Summary :=
  { hasValidStructure := r.errors.length = 0
    branchCount := match cfg.branches with | .arr l => l.length | _ => 0
    pluginCount := match cfg.plugins with | .arr l => l.length | _ => 0
    hasNpmPlugin :=
      match cfg.plugins with
      | .arr l => l.any (fun p => isPluginNamed "@semantic-release/npm" p)
      | _ => false
    hasGitPlugin :=
      match cfg.plugins with
      | .arr l => l.any (fun p => isPluginNamed "@semantic-release/git" p)
      | _ => false
    hasGitHubPlugin :=
      match cfg.plugins with
      | .arr l => l.any (fun p => isPluginNamed "@semantic-release/github" p)
      | _ => false }

/-- One conditional suggestion of the verbose block; the condition reads the
current result's summary. -/
def verboseSugg (cond : ValidationResult → Bool) (m : String) (r : ValidationResult) :
    ValidationResult :=
  if cond r then pushSugg m r else r

/-- Verbose explanations (source lines 372-385); they only add suggestions. -/
def verboseStep (r : ValidationResult) : ValidationResult :=
  verboseSugg (fun x => x.summary.hasGitHubPlugin)
    "GitHub plugin detected - will create GitHub releases"
    (verboseSugg (fun x => x.summary.hasGitPlugin)
      "Git plugin detected - will commit release changes"
      (verboseSugg (fun x => x.summary.hasNpmPlugin)
        "NPM plugin detected - good for publishing packages"
        (verboseSugg (fun x => x.summary.hasValidStructure)
          "Configuration structure is valid" r)))

/-- Run the `checkPlugins` block when enabled (source line 237). -/
def pluginsBlockApply (fs : FS) (o : ValidateOptions) (cfg : Config) (r : ValidationResult) :
    ValidationResult :=
  if o.checkPlugins then pluginsBlockStep fs cfg r else r

/-- Store the summary (source line 356). -/
def summaryApply (cfg : Config) (r : ValidationResult) : ValidationResult :=
  { r with summary := mkSummary cfg r }

/-- Run the verbose explanations when requested (source line 372). -/
def verboseApply (o : ValidateOptions) (r : ValidationResult) : ValidationResult :=
  if o.verbose then verboseStep r else r

/-- Validation of a configuration object up to (and excluding) the final
strict-mode adjustment (source lines 187-385). -/
def validateObjCore (fs : FS) (o : ValidateOptions) (cfg : Config) : ValidationResult :=
  verboseApply o (summaryApply cfg (pluginsBlockApply fs o cfg (pluginsCheck cfg (branchesCheck cfg {}))))

/-- The strict-mode adjustment (source lines 388-390). -/
def strictApply (o : ValidateOptions) (r : ValidationResult) : ValidationResult :=
  if o.strict && r.warnings.length > 0 then { r with isValid := false } else r

/-- Validation of an already-loaded configuration value (source lines 206-392),
ending with the strict-mode adjustment. -/
def validateObj (fs : FS) (o : ValidateOptions) (v : ConfigValue) : ValidationResult :=
  match v with
  | .nonObject =>
      { isValid := false, errors := ["Configuration must be an object"],
        warnings := [], suggestions := [], summary := {} }
  | .obj cfg => strictApply o (validateObjCore fs o cfg)

/-- Model of `validateConfig`.  `rm` models `require` of a configuration file
path (`none` is a load failure); `fs` is the filesystem read by the dry-runs. -/
def validateConfig (rm : String → Option ConfigValue) (fs : FS) (input : ConfigInput)
    (o : ValidateOptions) : ValidationResult :=
  match input with
  | .filePath p =>
      match rm p with
      | none =>
          { isValid := false, errors := ["Failed to load config file: " ++ p],
            warnings := [], suggestions := [], summary := {} }
      | some v => validateObj fs o v
  | .value v => validateObj fs o v

/-- Coercion of a pattern field to a regex object, as in the patcher:
`typeof regex === 'string' ? new RegExp(regex, 'g') : regex`.  A construction
failure is an error (thrown `SyntaxError`); the field is always checked truthy
before this point, so the absent case is unreachable there. -/
def toRegexObj : Option PatternVal → Except String JsRegex
  | some (.str s) =>
      match parseRE s with
      | some a => .ok { src := s, ast := a, global := true }
      | none => .error ("Invalid regular expression: /" ++ s ++ "/")
  | some (.re r) => .ok r
  | none => .error "invalid regex value"

/-- The live patcher's pattern loop (src/update-version.js lines 79-105):
check each entry, build its regex, substitute the real version and datetime
into the replacement, apply the textual replace; a replace that leaves the
content unchanged throws, otherwise the replacement counter is incremented. -/
def applyPatterns (version datetime filePath : String) :
    List PatternEntry → String → Nat → Except String (String × Nat)
  | [], content, reps => .ok (content, reps)
  | pat :: rest, content, reps =>
      if patTruthy pat.regex = false || optStrTruthy pat.replacement = false then
        .error ("Pattern must include both \"regex\" and \"replacement\" for file " ++ filePath)
      else
        match toRegexObj pat.regex with
        | .error e => .error e
        | .ok regexObj =>
            let finalReplacement := substPlaceholders version datetime (pat.replacement.getD "")
            let newContent := jsReplace regexObj content finalReplacement
            if newContent ≠ content then
              applyPatterns version datetime filePath rest newContent (reps + 1)
            else
              .error ("Pattern did not match any content in " ++ filePath ++ ": " ++
                showRegex regexObj)

/-- Model of the live patcher's `updateFile` (src/update-version.js lines
44-113).  Errors are thrown (`Except.error`); the single write happens only
after every pattern of the file succeeded. -/
def updateFile (fc : FileConfig) (version datetime : String) (fs : FS) :
    FS × Except String (String × Nat) :=
  if optStrTruthy fc.path = false then
    (fs, .error "File configuration must include \"path\"")
  else
    let filePath := fc.path.getD ""
    if fc.patterns.isArr = false && (patTruthy fc.pattern && optStrTruthy fc.replacement) = false then
      (fs, .error ("File " ++ filePath ++
        " must include either \"patterns\" array or \"pattern\" and \"replacement\" properties"))
    else
      let patternsToProcess : List PatternEntry :=
        if fc.patterns.isArr then fc.patterns.list
        else [{ regex := fc.pattern, replacement := fc.replacement }]
      let e := fsExistsSync fs filePath
      if e.2 = false then (e.1, .error ("File not found: " ++ filePath))
      else
        match (fsReadFileSync e.1 filePath).2 with
        | none => (e.1, .error ("cannot read " ++ filePath))
        | some content =>
            match applyPatterns version datetime filePath patternsToProcess content 0 with
            | .error msg => (e.1, .error msg)
            | .ok (c, n) => (fsWriteFileSync e.1 filePath c, .ok (filePath, n))

/-- The fields of a `package.json` read by `detectUserConfiguration`.
`scripts` and `devDependencies` are association lists (JavaScript object
lookup); `none` models an absent object. -/
structure PackageJson where
  isPrivate : Bool := false
  pkgName : Option String := none
  publishConfig : Bool := false
  enginesNode : Option String := none
  scripts : Option (List (String × String)) := none
  devDependencies : Option (List (String × String)) := none
deriving Repr, DecidableEq

/-- A parsed release-configuration file (only `branches` is read). -/
structure RcFile where
  branches : Option (List BranchVal) := none
deriving Repr, DecidableEq

/-- The result of `detectUserConfiguration`, with its source defaults. -/
structure DetectedConfig where
  branches : List String := ["main"]
  nodeVersion : String := "lts/*"
  runTests : Bool := false
  testCommand : Option String := none
  buildCommand : Option String := none
  isNpmPackage : Bool := false
  additionalScripts : List String := []
deriving Repr, DecidableEq

/-- Truthiness of `scripts[k]`. -/
def scriptTruthy (scr : List (String × String)) (k : String) : Bool :=
  match scr.lookup k with
  | some v => v ≠ ""
  | none => false

/-- Truthiness of `devDependencies[k]`. -/
def devDepTruthy (dd : List (String × String)) (k : String) : Bool :=
  match dd.lookup k with
  | some v => v ≠ ""
  | none => false

/-- The npm placeholder test script the detector refuses to run. -/
def npmPlaceholderTest : String := "echo \"Error: no test specified\" && exit 1"

/-- Test-framework development dependencies recognised by the detector
(source lines 579-589). -/
def testFrameworkDevDeps : List String :=
  ["jest", "mocha", "vitest", "ava", "tap",
   "@testing-library/react", "@testing-library/vue", "cypress", "playwright"]

/-- `hasTestFramework` (source lines 577-589). -/
def hasTestFrameworkB (pkg : PackageJson) (scr : List (String × String)) : Bool :=
  scriptTruthy scr "jest" || scriptTruthy scr "mocha" || scriptTruthy scr "vitest" ||
  scriptTruthy scr "ava" || scriptTruthy scr "tap" || scriptTruthy scr "nyc" ||
  (match pkg.devDependencies with
   | some dd => testFrameworkDevDeps.any (fun k => devDepTruthy dd k)
   | none => false)

/-- Conservative test detection (source lines 563-595). -/
def detectTests (pkg : PackageJson) (scr : List (String × String)) (c : DetectedConfig) :
    DetectedConfig :=
  if scriptTruthy scr "test:ci" then
    { c with runTests := true, testCommand := some "npm run test:ci" }
  else if scriptTruthy scr "test:prod" || scriptTruthy scr "test:production" then
    { c with runTests := true,
             testCommand := some (if scriptTruthy scr "test:prod" then "npm run test:prod"
               else "npm run test:production") }
  else
    match scr.lookup "test" with
    | some t =>
        if t ≠ "" && t ≠ npmPlaceholderTest && t ≠ "exit 1" &&
            strContains t "no test specified" = false then
          if hasTestFrameworkB pkg scr then
            { c with runTests := true, testCommand := some "npm test" }
          else c
        else c
    | none => c

/-- Framework-named script fallback (source lines 598-609). -/
def frameworkFallback (scr : List (String × String)) (c : DetectedConfig) : DetectedConfig :=
  if c.runTests = false then
    if scriptTruthy scr "jest" then { c with runTests := true, testCommand := some "npm run jest" }
    else if scriptTruthy scr "mocha" then
      { c with runTests := true, testCommand := some "npm run mocha" }
    else if scriptTruthy scr "vitest" then
      { c with runTests := true, testCommand := some "npm run vitest" }
    else c
  else c

/-- Build-command detection (source lines 612-618). -/
def buildDetect (scr : List (String × String)) (c : DetectedConfig) : DetectedConfig :=
  if scriptTruthy scr "build" then { c with buildCommand := some "npm run build" }
  else if scriptTruthy scr "compile" then { c with buildCommand := some "npm run compile" }
  else if scriptTruthy scr "dist" then { c with buildCommand := some "npm run dist" }
  else c

def auxScriptNames : List String := ["lint", "format", "typecheck", "validate"]

/-- Additional-scripts detection (source lines 621-625). -/
def auxScriptsDetect (scr : List (String × String)) (c : DetectedConfig) : DetectedConfig :=
  { c with additionalScripts :=
      c.additionalScripts ++ auxScriptNames.filter (fun k => scriptTruthy scr k) }

/-- `nodeVersion.replace(/[^\d.]/g, '')`. -/
def stripVersionChars (s : String) : String :=
  String.mk (s.data.filter (fun ch => ch.isDigit || ch == '.'))

/-- Node-version detection from `engines.node` (source lines 546-557). -/
def nodeVersionDetect (pkg : PackageJson) (c : DetectedConfig) : DetectedConfig :=
  match pkg.enginesNode with
  | some nv =>
      if nv ≠ "" then
        if strContains nv ">=" then { c with nodeVersion := stripVersionChars nv }
        else if strContains nv "^" || strContains nv "~" then
          { c with nodeVersion := stripVersionChars nv }
        else { c with nodeVersion := nv }
      else c
  | none => c

/-- npm-package detection (source line 543). -/
def npmPackageDetect (pkg : PackageJson) (c : DetectedConfig) : DetectedConfig :=
  { c with isNpmPackage :=
      pkg.isPrivate = false &&
      ((match pkg.pkgName with
        | some n => n ≠ "" && startsWithB n "@"
        | none => false) || pkg.publishConfig) }

def releaseConfigPaths : List String :=
  ["release.config.js", "release.config.json", ".releaserc.js", ".releaserc.json", ".releaserc"]

/-- First readable and parsable release-configuration file (the loop at
source lines 638-665; a missing or unparsable file is a `none` lookup). -/
def findFirstRc (rc : String → Option RcFile) : List String → Option RcFile
  | [] => none
  | p :: rest =>
      match rc p with
      | some f => some f
      | none => findFirstRc rc rest

/-- Branch-name extraction (source lines 653-657). -/
def branchNameOf : BranchVal → String
  | .str s => s
  | .obj (some n) => if n ≠ "" then n else "main"
  | .obj none => "main"

/-- Apply the detected release-configuration branches. -/
def rcBranches (rc : String → Option RcFile) (c : DetectedConfig) : DetectedConfig :=
  match findFirstRc rc releaseConfigPaths with
  | some f =>
      match f.branches with
      | some bs => { c with branches := (bs.map branchNameOf).filter (fun s => s ≠ "") }
      | none => c
  | none => c

/-- Model of `detectUserConfiguration` (source lines 523-672).  `pkg` is the
parsed `package.json` (`none` when missing) and `rc` looks up release
configuration files by name. -/
def detectUserConfiguration (pkg : Option PackageJson) (rc : String → Option RcFile) :
    DetectedConfig :=
  let c : DetectedConfig := {}
  let c :=
    match pkg with
    | none => c
    | some p =>
        let c := npmPackageDetect p c
        let c := nodeVersionDetect p c
        match p.scripts with
        | none => c
        | some scr => auxScriptsDetect scr (buildDetect scr (frameworkFallback scr (detectTests p scr c)))
  rcBranches rc c

/-! Concrete instances used by the witnesses and counterexamples below. -/

/-- The source text of the rule regex from the repository's PHP example:
`/(private string \$VERSION = \").*?(\";)/`. -/
def sampleSrc : String := "(private string \\$VERSION = \\\").*?(\\\";)"

/-- File content of the PHP example. -/
def sampleContent : String := "private string $VERSION = \"0.0.0\";"

/-- The example `RegExp` literal (no flags). -/
def sampleRegex : JsRegex :=
  { src := sampleSrc, ast := (parseRE sampleSrc).getD .emp, global := false }

/-- The example file rule, in the advanced (patterns-array) shape. -/
def sampleRule : FileConfig :=
  { path := some "DeckAnalyzer.php",
    patterns := .arr [{ regex := some (.re sampleRegex), replacement := some "$1{version}$2" }] }

/-- A filesystem holding only the example file. -/
def sampleFS : FS := fun p => if p = "DeckAnalyzer.php" then some sampleContent else none

/-- A `RegExp` literal `/a/`. -/
def aRegex : JsRegex := { src := "a", ast := .ch 'a', global := false }

/-- A `RegExp` literal `/z/`. -/
def zRegex : JsRegex := { src := "z", ast := .ch 'z', global := false }

/-- A file rule that carries BOTH the simple shape and the patterns array. -/
def bothShapesRule : FileConfig :=
  { path := some "f.txt", pattern := some (.re aRegex), replacement := some "b",
    patterns := .arr [{ regex := some (.re aRegex), replacement := some "b" }] }

/-- A configuration whose single update-version plugin holds `bothShapesRule`. -/
def bothShapesConfig : Config :=
  { branches := .arr [.str "main"],
    plugins := .arr [.arr (some "update-version.js") (some { files := .arr [bothShapesRule] })] }

/-- A filesystem holding the file targeted by `bothShapesRule`. -/
def bothShapesFS : FS := fun p => if p = "f.txt" then some "hello" else none

/-- A `require` that can load nothing. -/
def noRequire : String → Option ConfigValue := fun _ => none

/-- A patterns entry whose regex does not match `"hello"`. -/
def patZ : PatternEntry := { regex := some (.re zRegex), replacement := some "y" }

/-- A patterns entry whose replacement leaves `"aa"` unchanged (regex matches). -/
def patIdent : PatternEntry := { regex := some (.re aRegex), replacement := some "a" }

/-- A patterns entry that changes `"aa"`. -/
def patChange : PatternEntry := { regex := some (.re aRegex), replacement := some "b" }

/-- A simple-shape file rule whose regex matches but whose replacement leaves
the content unchanged. -/
def fcIdent : FileConfig :=
  { path := some "i.txt", pattern := some (.re aRegex), replacement := some "a" }

/-- A filesystem holding the file targeted by `fcIdent`. -/
def fsAA : FS := fun p => if p = "i.txt" then some "aa" else none

/-- A simple-shape file rule whose regex does not match its file. -/
def fcNoMatch : FileConfig :=
  { path := some "x.txt", pattern := some (.re zRegex), replacement := some "y" }

/-- A filesystem holding the file targeted by `fcNoMatch`. -/
def fsHello : FS := fun p => if p = "x.txt" then some "hello" else none

/-- A simple-shape file rule whose target file does not exist. -/
def missRule : FileConfig :=
  { path := some "missing.txt", pattern := some (.str "a"), replacement := some "b" }

/-- A configuration whose single update-version plugin holds `missRule`. -/
def missConfig : Config :=
  { branches := .arr [.str "main"],
    plugins := .arr [.arr (some "update-version.js") (some { files := .arr [missRule] })] }

/-- The empty filesystem. -/
def emptyFS : FS := fun _ => none

/-- A file rule with an unknown property `pathss` (and no pattern shape). -/
def typoRule : FileConfig := { path := some "t.txt", extraProps := ["pathss"] }

/-- A configuration whose single update-version plugin holds `typoRule`. -/
def typoConfig : Config :=
  { branches := .arr [.str "main"],
    plugins := .arr [.arr (some "update-version.js") (some { files := .arr [typoRule] })] }

/-- A file rule with neither the simple shape nor a patterns array. -/
def neitherRule : FileConfig := { path := some "n.txt" }

/-- A configuration whose single update-version plugin holds `neitherRule`. -/
def neitherConfig : Config :=
  { branches := .arr [.str "main"],
    plugins := .arr [.arr (some "update-version.js") (some { files := .arr [neitherRule] })] }

/-- A configuration without a `plugins` field. -/
def noPluginsConfig : Config := { branches := .arr [.str "main"], plugins := .absent }

/-- A `package.json` with `scripts.test = "jest"` and a `jest` devDependency. -/
def pkgJest : PackageJson :=
  { scripts := some [("test", "jest")], devDependencies := some [("jest", "^29.0.0")] }

/-- A `package.json` with the npm placeholder test script. -/
def pkgPlaceholder : PackageJson := { scripts := some [("test", npmPlaceholderTest)] }

/-- No release-configuration files. -/
def noRc : String → Option RcFile := fun _ => none

/-- Invariant of a dry-run result: success exactly when no error was pushed. -/
def DROk (d : DryRunResult) : Prop := d.success = true ↔ d.errors = []

/-- Invariant of a validation result: valid exactly when no error was pushed
(this holds up to the strict-mode adjustment). -/
def VOk (r : ValidationResult) : Prop := r.isValid = true ↔ r.errors = []

/-- `Keeps a b`: `b` extends `a` without dropping errors or resurrecting
validity. -/
def Keeps (a b : ValidationResult) : Prop :=
  (∀ e, e ∈ a.errors → e ∈ b.errors) ∧ (a.isValid = false → b.isValid = false)

/-! Helper lemmas. -/

/-- A string is its character list repacked. -/
theorem strMkData (s : String) : String.mk s.data = s := by
  cases s
  rfl

/-- A regex that does not match leaves the content unchanged under `replace`. -/
theorem jsReplace_of_no_match (r : JsRegex) (content tmpl : String)
    (h : jsTest r content = false) : jsReplace r content tmpl = content := by
  unfold jsTest at h
  cases hs : searchRE r.ast content.data with
  | some info => rw [hs] at h; simp at h
  | none =>
      unfold jsReplace
      cases hg : r.global with
      | false => simp [hs]
      | true => simp [jsReplaceAllAux, hs, strMkData]

/-- Processing one live-patch pattern whose substituted replacement leaves the
content unchanged throws the `Pattern did not match` error. -/
theorem applyPatterns_step_err (version datetime filePath : String)
    (pat : PatternEntry) (rest : List PatternEntry) (content : String) (reps : Nat)
    (rgx : JsRegex)
    (hT : patTruthy pat.regex = true) (hR : optStrTruthy pat.replacement = true)
    (hC : toRegexObj pat.regex = .ok rgx)
    (heq : jsReplace rgx content (substPlaceholders version datetime (pat.replacement.getD "")) = content) :
    applyPatterns version datetime filePath (pat :: rest) content reps =
      .error ("Pattern did not match any content in " ++ filePath ++ ": " ++ showRegex rgx) := by
  unfold applyPatterns
  rw [hT, hR]
  simp only [Bool.false_eq_true, or_self, if_false, hC]
  simp [heq]

/-- Processing one live-patch pattern whose substituted replacement changes the
content continues with the new content and an incremented counter. -/
theorem applyPatterns_step_cont (version datetime filePath : String)
    (pat : PatternEntry) (rest : List PatternEntry) (content : String) (reps : Nat)
    (rgx : JsRegex)
    (hT : patTruthy pat.regex = true) (hR : optStrTruthy pat.replacement = true)
    (hC : toRegexObj pat.regex = .ok rgx)
    (hne : jsReplace rgx content (substPlaceholders version datetime (pat.replacement.getD "")) ≠ content) :
    applyPatterns version datetime filePath (pat :: rest) content reps =
      applyPatterns version datetime filePath rest
        (jsReplace rgx content (substPlaceholders version datetime (pat.replacement.getD ""))) (reps + 1) := by
  simp only [applyPatterns, hT, hR, hC]
  simp [hne]

/-- The live patcher either leaves the filesystem untouched or performed its
single final write (in which case it returned `ok`). -/
theorem updateFile_write_or_id (fc : FileConfig) (version datetime : String) (fs : FS) :
    (updateFile fc version datetime fs).1 = fs ∨
      ∃ pr, (updateFile fc version datetime fs).2 = .ok pr := by
  unfold updateFile
  simp only [fsExistsSync, fsReadFileSync]
  split
  · left; rfl
  · split
    · left; rfl
    · split
      · left; rfl
      · split
        · left; rfl
        · split
          · left; rfl
          · right; exact ⟨_, rfl⟩

/-- On any thrown error the live patcher leaves the filesystem unchanged. -/
theorem updateFile_err_fs_eq (fc : FileConfig) (version datetime : String) (fs : FS)
    (e : String) (h : (updateFile fc version datetime fs).2 = .error e) :
    (updateFile fc version datetime fs).1 = fs := by
  rcases updateFile_write_or_id fc version datetime fs with hid | ⟨pr, hok⟩
  · exact hid
  · rw [hok] at h; exact absurd h (by simp)

/-- If a prefix of the pattern list processes successfully and the next
pattern's regex does not match the content reached at that point, the whole
pattern loop throws. -/
theorem applyPatterns_no_match_err (version datetime filePath : String)
    (l₁ : List PatternEntry) (pat : PatternEntry) (l₂ : List PatternEntry)
    (content : String) (reps : Nat) (c : String) (n : Nat) (rgx : JsRegex)
    (h : applyPatterns version datetime filePath l₁ content reps = .ok (c, n))
    (hT : patTruthy pat.regex = true) (hR : optStrTruthy pat.replacement = true)
    (hC : toRegexObj pat.regex = .ok rgx)
    (hjs : jsTest rgx c = false) :
    ∃ msg, applyPatterns version datetime filePath (l₁ ++ pat :: l₂) content reps = .error msg := by
  induction l₁ generalizing content reps with
  | nil =>
      simp only [applyPatterns, Except.ok.injEq, Prod.mk.injEq] at h
      obtain ⟨rfl, rfl⟩ := h
      exact ⟨_, applyPatterns_step_err version datetime filePath pat l₂ content reps rgx
        hT hR hC (jsReplace_of_no_match rgx content _ hjs)⟩
  | cons q l₁ ih =>
      rw [List.cons_append]
      simp only [applyPatterns] at h
      split at h
      · simp at h
      next hq =>
        have hqT : patTruthy q.regex = true := by
          cases hb : patTruthy q.regex
          · exact absurd (by simp [hb]) hq
          · rfl
        have hqR : optStrTruthy q.replacement = true := by
          cases hb : optStrTruthy q.replacement
          · exact absurd (by simp [hb]) hq
          · rfl
        split at h
        · simp at h
        next rgx' hc =>
          split at h
          next hne =>
            obtain ⟨msg, hmsg⟩ := ih _ _ h
            refine ⟨msg, ?_⟩
            rw [applyPatterns_step_cont version datetime filePath q (l₁ ++ pat :: l₂)
              content reps rgx' hqT hqR hc hne]
            exact hmsg
          next hne => simp at h

/-- C10: in the live patcher's pattern loop, the fatal `Pattern did not match`
error is raised exactly when applying the substituted replacement leaves the
in-memory content unchanged — so a pattern whose regex matches but whose
replacement reproduces the matched text aborts as well — and on any such
error the target file is not written. -/
theorem updateFile_error_iff_unchanged :
    (∀ version datetime filePath pat rest content reps rgx,
      patTruthy pat.regex = true → optStrTruthy pat.replacement = true →
      toRegexObj pat.regex = .ok rgx →
      jsReplace rgx content (substPlaceholders version datetime (pat.replacement.getD "")) = content →
      applyPatterns version datetime filePath (pat :: rest) content reps =
        .error ("Pattern did not match any content in " ++ filePath ++ ": " ++ showRegex rgx)) ∧
    (∀ version datetime filePath pat rest content reps rgx,
      patTruthy pat.regex = true → optStrTruthy pat.replacement = true →
      toRegexObj pat.regex = .ok rgx →
      jsReplace rgx content (substPlaceholders version datetime (pat.replacement.getD "")) ≠ content →
      applyPatterns version datetime filePath (pat :: rest) content reps =
        applyPatterns version datetime filePath rest
          (jsReplace rgx content (substPlaceholders version datetime (pat.replacement.getD "")))
          (reps + 1)) ∧
    (∀ fc version datetime fs e,
      (updateFile fc version datetime fs).2 = .error e →
      (updateFile fc version datetime fs).1 = fs) :=
  ⟨fun v dt fp pat rest c reps rgx hT hR hC heq =>
      applyPatterns_step_err v dt fp pat rest c reps rgx hT hR hC heq,
   fun v dt fp pat rest c reps rgx hT hR hC hne =>
      applyPatterns_step_cont v dt fp pat rest c reps rgx hT hR hC hne,
   fun fc v dt fs e h => updateFile_err_fs_eq fc v dt fs e h⟩

/-- Witness for C10 on concrete inputs: on content `"aa"`, the rule `/a/` with
replacement `"a"` matches but changes nothing, so the loop throws; with
replacement `"b"` it changes the content and the loop continues; and the
erroring update leaves the filesystem unchanged. -/
theorem updateFile_error_iff_unchanged_witness :
    jsTest aRegex "aa" = true ∧
    jsReplace aRegex "aa" (substPlaceholders "9.9.9" "d" (patIdent.replacement.getD "")) = "aa" ∧
    applyPatterns "9.9.9" "d" "i.txt" (patIdent :: []) "aa" 0 =
      .error ("Pattern did not match any content in " ++ "i.txt" ++ ": " ++ showRegex aRegex) ∧
    jsReplace aRegex "aa" (substPlaceholders "9.9.9" "d" (patChange.replacement.getD "")) ≠ "aa" ∧
    applyPatterns "9.9.9" "d" "i.txt" (patChange :: []) "aa" 0 =
      applyPatterns "9.9.9" "d" "i.txt" []
        (jsReplace aRegex "aa" (substPlaceholders "9.9.9" "d" (patChange.replacement.getD ""))) (0 + 1) ∧
    (updateFile fcIdent "9.9.9" "d" fsAA).2 =
      .error ("Pattern did not match any content in " ++ "i.txt" ++ ": " ++ showRegex aRegex) ∧
    (updateFile fcIdent "9.9.9" "d" fsAA).1 = fsAA :=
  ⟨by decide, by decide,
   updateFile_error_iff_unchanged.1 "9.9.9" "d" "i.txt" patIdent [] "aa" 0 aRegex
     (by decide) (by decide) rfl (by decide),
   by decide,
   updateFile_error_iff_unchanged.2.1 "9.9.9" "d" "i.txt" patChange [] "aa" 0 aRegex
     (by decide) (by decide) rfl (by decide),
   rfl,
   updateFile_error_iff_unchanged.2.2 fcIdent "9.9.9" "d" fsAA _ rfl⟩

/-- C2: if a pattern's regex does not match the content reached at its point
in the loop, `updateFile` throws (fatal error), and whenever `updateFile`
throws, the target file is left unmodified — the single write happens only
after all patterns succeeded. -/
theorem updateFile_no_match_aborts_unmodified :
    (∀ fc version datetime fs e,
      (updateFile fc version datetime fs).2 = .error e →
      (updateFile fc version datetime fs).1 = fs) ∧
    (∀ version datetime filePath l₁ pat l₂ content reps c n rgx,
      applyPatterns version datetime filePath l₁ content reps = .ok (c, n) →
      patTruthy pat.regex = true → optStrTruthy pat.replacement = true →
      toRegexObj pat.regex = .ok rgx →
      jsTest rgx c = false →
      ∃ msg, applyPatterns version datetime filePath (l₁ ++ pat :: l₂) content reps = .error msg) :=
  ⟨fun fc v dt fs e h => updateFile_err_fs_eq fc v dt fs e h,
   fun v dt fp l₁ pat l₂ content reps c n rgx h hT hR hC hjs =>
      applyPatterns_no_match_err v dt fp l₁ pat l₂ content reps c n rgx h hT hR hC hjs⟩

/-- Witness for C2 on concrete inputs: the rule `/z/` does not match
`"hello"`, the update throws and the file map is unchanged. -/
theorem updateFile_no_match_aborts_unmodified_witness :
    (updateFile fcNoMatch "2.0.0" "2024" fsHello).2 =
      .error ("Pattern did not match any content in " ++ "x.txt" ++ ": " ++ showRegex zRegex) ∧
    (updateFile fcNoMatch "2.0.0" "2024" fsHello).1 = fsHello ∧
    applyPatterns "2.0.0" "2024" "x.txt" [] "hello" 0 = .ok ("hello", 0) ∧
    jsTest zRegex "hello" = false ∧
    ∃ msg, applyPatterns "2.0.0" "2024" "x.txt" ([] ++ patZ :: []) "hello" 0 = .error msg :=
  ⟨rfl,
   updateFile_no_match_aborts_unmodified.1 fcNoMatch "2.0.0" "2024" fsHello _ rfl,
   rfl, by decide,
   updateFile_no_match_aborts_unmodified.2 "2.0.0" "2024" "x.txt" [] patZ [] "hello" 0
     "hello" 0 zRegex rfl (by decide) (by decide) rfl (by decide)⟩

/-- C8: the dry-run simulation is read-only — for every filesystem, file rule
and report indices, the filesystem component it returns is exactly the input
filesystem, whatever the patterns do. -/
theorem dry_run_read_only (fs : FS) (fc : FileConfig) (pn fn : Nat) :
    (validateUpdateVersionDryRun fs fc pn fn).1 = fs := by
  unfold validateUpdateVersionDryRun
  simp only [fsExistsSync, fsReadFileSync]
  split
  · rfl
  · split <;> rfl

/-- C5: for each pattern the dry-run tests against existing readable content:
no match records the `does not match` warning; a match whose substituted
replacement leaves the content identical records the `no changes` warning; a
match that changes the content increments the replacement counter (adding only
the unreplaced-placeholder warning when applicable) and records no error.  On
the file `private string $VERSION = "0.0.0";` with the repository's example
rule and replacement `$1{version}$2`, the dry-run reports success with exactly
one replacement and no warning at all. -/
theorem dry_run_pattern_outcomes :
    (∀ content pn fn k rgx repl acc,
      jsTest rgx content = false →
      dryRunTest content pn fn k rgx (some repl) acc =
        { acc with warnings := acc.warnings ++ [msgNoMatch pn fn k] }) ∧
    (∀ content pn fn k rgx repl acc,
      jsTest rgx content = true →
      jsReplace rgx content (substPlaceholders mockVersion mockDatetime repl) = content →
      dryRunTest content pn fn k rgx (some repl) acc =
        { acc with warnings := acc.warnings ++ [msgNoChanges pn fn k] }) ∧
    (∀ content pn fn k rgx repl acc,
      jsTest rgx content = true →
      jsReplace rgx content (substPlaceholders mockVersion mockDatetime repl) ≠ content →
      (dryRunTest content pn fn k rgx (some repl) acc).replacements = acc.replacements + 1 ∧
      (dryRunTest content pn fn k rgx (some repl) acc).warnings =
        acc.warnings ++
          (if strContains (substPlaceholders mockVersion mockDatetime repl) "{version}" ||
              strContains (substPlaceholders mockVersion mockDatetime repl) "{datetime}" then
            [msgUnreplaced pn fn k]
          else []) ∧
      (dryRunTest content pn fn k rgx (some repl) acc).errors = acc.errors) ∧
    (validateUpdateVersionDryRun sampleFS sampleRule 1 1).2 =
      { success := true, errors := [], warnings := [], replacements := 1 } := by
  refine ⟨?_, ?_, ?_, by decide⟩
  · intro content pn fn k rgx repl acc h
    simp [dryRunTest, h]
  · intro content pn fn k rgx repl acc h heq
    simp [dryRunTest, h, heq]
  · intro content pn fn k rgx repl acc h hne
    refine ⟨?_, ?_, ?_⟩ <;> simp [dryRunTest, h, hne] <;> split <;> simp

/-- Witness for C5 on concrete inputs: a non-matching pattern (`/z/` on
`"hello"`), a matching no-op pattern (`/a/` with replacement `"a"` on `"aa"`),
and the repository's PHP example, which matches and changes the content. -/
theorem dry_run_pattern_outcomes_witness :
    jsTest zRegex "hello" = false ∧
    dryRunTest "hello" 1 1 1 zRegex (some "y") {} =
      { ({} : DryRunResult) with
        warnings := ({} : DryRunResult).warnings ++ [msgNoMatch 1 1 1] } ∧
    jsTest aRegex "aa" = true ∧
    jsReplace aRegex "aa" (substPlaceholders mockVersion mockDatetime "a") = "aa" ∧
    dryRunTest "aa" 1 1 1 aRegex (some "a") {} =
      { ({} : DryRunResult) with
        warnings := ({} : DryRunResult).warnings ++ [msgNoChanges 1 1 1] } ∧
    jsTest sampleRegex sampleContent = true ∧
    jsReplace sampleRegex sampleContent
        (substPlaceholders mockVersion mockDatetime "$1{version}$2") ≠ sampleContent ∧
    (dryRunTest sampleContent 1 1 1 sampleRegex (some "$1{version}$2") {}).replacements =
      ({} : DryRunResult).replacements + 1 :=
  ⟨by decide,
   dry_run_pattern_outcomes.1 "hello" 1 1 1 zRegex "y" {} (by decide),
   by decide, by decide,
   dry_run_pattern_outcomes.2.1 "aa" 1 1 1 aRegex "a" {} (by decide) (by decide),
   by decide, by decide,
   (dry_run_pattern_outcomes.2.2.1 sampleContent 1 1 1 sampleRegex "$1{version}$2" {}
     (by decide) (by decide)).1⟩

/-! Invariant: a dry-run result is successful exactly when it has no error. -/

theorem drok_dryRunTest (content : String) (pn fn k : Nat) (rgx : JsRegex)
    (replField : Option String) (acc : DryRunResult) (h : DROk acc) :
    DROk (dryRunTest content pn fn k rgx replField acc) := by
  unfold DROk at *
  cases replField with
  | none => simp [dryRunTest]
  | some repl =>
      simp only [dryRunTest]
      split
      · simpa using h
      · split
        · simpa using h
        · split
          · simpa using h
          · simpa using h

theorem drok_dryRunPatStep (content : String) (pn fn k : Nat) (pat : PatternEntry)
    (acc : DryRunResult) (h : DROk acc) :
    DROk (dryRunPatStep content pn fn k pat acc) := by
  simp only [dryRunPatStep]
  cases hr : pat.regex with
  | none => unfold DROk; simp
  | some pv =>
      cases pv with
      | str s =>
          simp only []
          cases hp : parseRE s with
          | none => unfold DROk; simp
          | some a => exact drok_dryRunTest content pn fn k _ pat.replacement acc h
      | re rg => exact drok_dryRunTest content pn fn k rg pat.replacement acc h

theorem drok_dryRunPats (content : String) (pn fn : Nat) (pats : List PatternEntry)
    (k : Nat) (acc : DryRunResult) (h : DROk acc) :
    DROk (dryRunPats content pn fn k pats acc) := by
  induction pats generalizing k acc with
  | nil => exact h
  | cons pat rest ih =>
      exact ih (k + 1) _ (drok_dryRunPatStep content pn fn (k + 1) pat acc h)

theorem drok_dryrun (fs : FS) (fc : FileConfig) (pn fn : Nat) :
    DROk (validateUpdateVersionDryRun fs fc pn fn).2 := by
  unfold validateUpdateVersionDryRun
  simp only [fsExistsSync, fsReadFileSync]
  split
  · unfold DROk; simp
  · split
    · unfold DROk; simp
    · exact drok_dryRunPats _ pn fn _ 0 {} (by unfold DROk; simp)

/-! Invariant: before the strict-mode step, the validation result is valid
exactly when it has no error. -/

theorem vok_pushErr (m : String) (r : ValidationResult) : VOk (pushErr m r) := by
  unfold VOk pushErr
  simp

theorem vok_pushWarn (m : String) (r : ValidationResult) (h : VOk r) : VOk (pushWarn m r) := by
  unfold VOk pushWarn at *
  simpa using h

theorem vok_pushSugg (m : String) (r : ValidationResult) (h : VOk r) : VOk (pushSugg m r) := by
  unfold VOk pushSugg at *
  simpa using h

theorem vok_branchesCheck (cfg : Config) (r : ValidationResult) (h : VOk r) :
    VOk (branchesCheck cfg r) := by
  unfold branchesCheck
  split
  · exact vok_pushWarn _ _ h
  · exact vok_pushErr _ _
  · split
    · exact vok_pushErr _ _
    · exact h

theorem vok_pluginsCheck (cfg : Config) (r : ValidationResult) (h : VOk r) :
    VOk (pluginsCheck cfg r) := by
  unfold pluginsCheck
  split
  · exact vok_pushErr _ _
  · exact vok_pushErr _ _
  · split
    · exact vok_pushErr _ _
    · exact h

theorem vok_requiredWarnStep (names : List (Option String)) (r : ValidationResult)
    (h : VOk r) : VOk (requiredWarnStep names r) := by
  unfold requiredWarnStep requiredPluginNames
  simp only [List.foldl]
  split
  · split
    · exact h
    · exact vok_pushWarn _ _ h
  · split
    · exact vok_pushWarn _ _ h
    · exact vok_pushWarn _ _ (vok_pushWarn _ _ h)

theorem vok_npmSuggestStep (ps : List Plugin) (r : ValidationResult) (h : VOk r) :
    VOk (npmSuggestStep ps r) := by
  unfold npmSuggestStep
  split
  · split
    · exact vok_pushSugg _ _ h
    · exact h
  · exact h

theorem vok_typoStep (pn fn : Nat) (prop : String) (r : ValidationResult) (h : VOk r) :
    VOk (typoStep pn fn prop r) := by
  unfold typoStep
  split
  · exact h
  · exact vok_pushErr _ _

theorem vok_typoIter (pn fn : Nat) (l : List String) (r : ValidationResult) (h : VOk r) :
    VOk (typoIter pn fn l r) := by
  induction l generalizing r with
  | nil => exact h
  | cons p rest ih => exact ih _ (vok_typoStep pn fn p r h)

theorem vok_patsEntryStep (pn fn k : Nat) (pat : PatternEntry) (r : ValidationResult)
    (h : VOk r) : VOk (patsEntryStep pn fn k pat r) := by
  simp only [patsEntryStep]
  split
  · split
    · exact vok_pushErr _ _
    · exact vok_pushErr _ _
  · split
    · exact vok_pushErr _ _
    · exact h

theorem vok_patsIter (pn fn : Nat) (pats : List PatternEntry) (k : Nat)
    (r : ValidationResult) (h : VOk r) : VOk (patsIter pn fn k pats r) := by
  induction pats generalizing k r with
  | nil => exact h
  | cons pat rest ih => exact ih _ _ (vok_patsEntryStep pn fn (k + 1) pat r h)

theorem vok_mergeDryRun (pn fn : Nat) (d : DryRunResult) (r : ValidationResult)
    (hd : DROk d) (h : VOk r) : VOk (mergeDryRun pn fn d r) := by
  unfold DROk at hd
  unfold VOk at *
  simp only [mergeDryRun]
  split
  next hsf =>
    have hne : d.errors ≠ [] := by
      intro hnil
      rw [hd.mpr hnil] at hsf
      exact absurd hsf (by simp)
    simp [hne]
  next hsf =>
    have hs : d.success = true := by
      cases hb : d.success
      · exact absurd hb hsf
      · rfl
    have he : d.errors = [] := hd.mp hs
    simpa [pushSugg, he] using h

theorem vok_fileRulePath (pn fn : Nat) (fc : FileConfig) (r : ValidationResult)
    (h : VOk r) : VOk (fileRulePath pn fn fc r) := by
  unfold fileRulePath
  split
  · exact vok_pushErr _ _
  · exact h

theorem vok_fileRuleFormat (pn fn : Nat) (fc : FileConfig) (r : ValidationResult)
    (h : VOk r) : VOk (fileRuleFormat pn fn fc r) := by
  unfold fileRuleFormat
  split
  · exact vok_pushErr _ _
  · exact h

theorem vok_fileRulePats (pn fn : Nat) (fc : FileConfig) (r : ValidationResult)
    (h : VOk r) : VOk (fileRulePats pn fn fc r) := by
  unfold fileRulePats
  split
  · exact vok_patsIter pn fn _ 0 r h
  · exact h

theorem vok_fileRuleDry (fs : FS) (pn fn : Nat) (fc : FileConfig) (r : ValidationResult)
    (h : VOk r) : VOk (fileRuleDry fs pn fn fc r) := by
  unfold fileRuleDry
  split
  · exact vok_mergeDryRun pn fn _ r (drok_dryrun fs fc pn fn) h
  · exact h

theorem vok_validateFileRule (fs : FS) (pn fn : Nat) (fc : FileConfig)
    (r : ValidationResult) (h : VOk r) : VOk (validateFileRule fs pn fn fc r) :=
  vok_fileRuleDry fs pn fn fc _
    (vok_fileRulePats pn fn fc _
      (vok_fileRuleFormat pn fn fc _
        (vok_typoIter pn fn fc.extraProps _
          (vok_fileRulePath pn fn fc r h))))

theorem vok_filesIter (fs : FS) (pn : Nat) (fcs : List FileConfig) (j : Nat)
    (r : ValidationResult) (h : VOk r) : VOk (filesIter fs pn j fcs r) := by
  induction fcs generalizing j r with
  | nil => exact h
  | cons fc rest ih => exact ih _ _ (vok_validateFileRule fs pn (j + 1) fc r h)

theorem vok_uvStep (fs : FS) (pn : Nat) (p : Plugin) (r : ValidationResult)
    (h : VOk r) : VOk (uvStep fs pn p r) := by
  unfold uvStep
  split
  · split
    · exact h
    · exact vok_pushErr _ _
    · exact vok_filesIter fs pn _ 0 r h
  · exact h

theorem vok_uvIter (fs : FS) (ps : List Plugin) (i : Nat) (r : ValidationResult)
    (h : VOk r) : VOk (uvIter fs i ps r) := by
  induction ps generalizing i r with
  | nil => exact h
  | cons p rest ih => exact ih _ _ (vok_uvStep fs (i + 1) p r h)

theorem vok_pluginsBlockStep (fs : FS) (cfg : Config) (r : ValidationResult)
    (h : VOk r) : VOk (pluginsBlockStep fs cfg r) := by
  unfold pluginsBlockStep
  split
  · exact vok_uvIter fs _ 0 _
      (vok_npmSuggestStep _ _ (vok_requiredWarnStep _ r h))
  · exact h

theorem vok_pluginsBlockApply (fs : FS) (o : ValidateOptions) (cfg : Config)
    (r : ValidationResult) (h : VOk r) : VOk (pluginsBlockApply fs o cfg r) := by
  unfold pluginsBlockApply
  split
  · exact vok_pluginsBlockStep fs cfg r h
  · exact h

theorem vok_summaryApply (cfg : Config) (r : ValidationResult) (h : VOk r) :
    VOk (summaryApply cfg r) := by
  unfold VOk summaryApply at *
  simpa using h

theorem vok_verboseSugg (cond : ValidationResult → Bool) (m : String)
    (r : ValidationResult) (h : VOk r) : VOk (verboseSugg cond m r) := by
  unfold verboseSugg
  split
  · exact vok_pushSugg _ _ h
  · exact h

theorem vok_verboseStep (r : ValidationResult) (h : VOk r) : VOk (verboseStep r) :=
  vok_verboseSugg _ _ _ (vok_verboseSugg _ _ _ (vok_verboseSugg _ _ _ (vok_verboseSugg _ _ _ h)))

theorem vok_verboseApply (o : ValidateOptions) (r : ValidationResult) (h : VOk r) :
    VOk (verboseApply o r) := by
  unfold verboseApply
  split
  · exact vok_verboseStep r h
  · exact h

theorem vok_validateObjCore (fs : FS) (o : ValidateOptions) (cfg : Config) :
    VOk (validateObjCore fs o cfg) :=
  vok_verboseApply o _
    (vok_summaryApply cfg _
      (vok_pluginsBlockApply fs o cfg _
        (vok_pluginsCheck cfg _
          (vok_branchesCheck cfg {} (by unfold VOk; simp)))))

/-- The validity/errors/warnings relation for an already-loaded value. -/
theorem validateObj_isValid_iff (fs : FS) (o : ValidateOptions) (v : ConfigValue) :
    (validateObj fs o v).isValid = false ↔
      ((validateObj fs o v).errors ≠ [] ∨
        (o.strict = true ∧ (validateObj fs o v).warnings ≠ [])) := by
  cases v with
  | nonObject => unfold validateObj; simp
  | obj cfg =>
      have hv := vok_validateObjCore fs o cfg
      unfold VOk at hv
      unfold validateObj strictApply
      simp only []
      split
      next hcond =>
        rw [Bool.and_eq_true] at hcond
        have hs : o.strict = true := hcond.1
        have hw : (validateObjCore fs o cfg).warnings ≠ [] := by
          have := of_decide_eq_true hcond.2
          exact List.ne_nil_of_length_pos this
        constructor
        · intro _
          exact Or.inr ⟨hs, by simpa using hw⟩
        · intro _
          rfl
      next hcond =>
        have h2 : o.strict = false ∨ (validateObjCore fs o cfg).warnings = [] := by
          by_cases hs : o.strict = true
          · by_cases hw : (validateObjCore fs o cfg).warnings = []
            · exact Or.inr hw
            · exact absurd (by simp [hs, List.length_pos.mpr hw]) hcond
          · refine Or.inl ?_
            cases hb : o.strict
            · rfl
            · exact absurd hb hs
        constructor
        · intro hfalse
          left
          intro hnil
          rw [hv.mpr hnil] at hfalse
          exact absurd hfalse (by simp)
        · intro hor
          rcases hor with hne | ⟨hs, hw⟩
          · cases hb : (validateObjCore fs o cfg).isValid
            · rfl
            · exact absurd (hv.mp hb) hne
          · rcases h2 with h2 | h2
            · rw [hs] at h2; exact absurd h2 (by simp)
            · exact absurd h2 hw

/-- C3: the validation result is invalid exactly when the errors list is
non-empty or strict mode is on and the warnings list is non-empty; every
pushed error invalidates the result, and warnings alone do so only under
strict mode. -/
theorem validateConfig_isValid_iff (rm : String → Option ConfigValue) (fs : FS)
    (input : ConfigInput) (o : ValidateOptions) :
    (validateConfig rm fs input o).isValid = false ↔
      ((validateConfig rm fs input o).errors ≠ [] ∨
        (o.strict = true ∧ (validateConfig rm fs input o).warnings ≠ [])) := by
  cases input with
  | value v => exact validateObj_isValid_iff fs o v
  | filePath p =>
      unfold validateConfig
      cases hrm : rm p with
      | none => simp only [hrm]; simp
      | some v => simp only [hrm]; exact validateObj_isValid_iff fs o v

/-! Monotonicity: every validation stage keeps the collected errors and never
turns an invalid result valid again. -/

theorem keeps_refl (r : ValidationResult) : Keeps r r :=
  ⟨fun _ he => he, fun hf => hf⟩

theorem keeps_trans {a b c : ValidationResult} (h1 : Keeps a b) (h2 : Keeps b c) :
    Keeps a c :=
  ⟨fun e he => h2.1 e (h1.1 e he), fun hf => h2.2 (h1.2 hf)⟩

theorem keeps_pushErr (m : String) (r : ValidationResult) : Keeps r (pushErr m r) :=
  ⟨fun e he => by unfold pushErr; simp; exact Or.inl he, fun _ => by unfold pushErr; simp⟩

theorem keeps_pushWarn (m : String) (r : ValidationResult) : Keeps r (pushWarn m r) :=
  ⟨fun e he => he, fun hf => hf⟩

theorem keeps_pushSugg (m : String) (r : ValidationResult) : Keeps r (pushSugg m r) :=
  ⟨fun e he => he, fun hf => hf⟩

theorem keeps_branchesCheck (cfg : Config) (r : ValidationResult) :
    Keeps r (branchesCheck cfg r) := by
  unfold branchesCheck
  split
  · exact keeps_pushWarn _ r
  · exact keeps_pushErr _ r
  · split
    · exact keeps_pushErr _ r
    · exact keeps_refl r

theorem keeps_pluginsCheck (cfg : Config) (r : ValidationResult) :
    Keeps r (pluginsCheck cfg r) := by
  unfold pluginsCheck
  split
  · exact keeps_pushErr _ r
  · exact keeps_pushErr _ r
  · split
    · exact keeps_pushErr _ r
    · exact keeps_refl r

theorem keeps_requiredWarnStep (names : List (Option String)) (r : ValidationResult) :
    Keeps r (requiredWarnStep names r) := by
  unfold requiredWarnStep requiredPluginNames
  simp only [List.foldl]
  split
  · split
    · exact keeps_refl r
    · exact keeps_pushWarn _ r
  · split
    · exact keeps_pushWarn _ r
    · exact keeps_trans (keeps_pushWarn _ r) (keeps_pushWarn _ _)

theorem keeps_npmSuggestStep (ps : List Plugin) (r : ValidationResult) :
    Keeps r (npmSuggestStep ps r) := by
  unfold npmSuggestStep
  split
  · split
    · exact keeps_pushSugg _ r
    · exact keeps_refl r
  · exact keeps_refl r

theorem keeps_typoStep (pn fn : Nat) (prop : String) (r : ValidationResult) :
    Keeps r (typoStep pn fn prop r) := by
  unfold typoStep
  split
  · exact keeps_refl r
  · exact keeps_pushErr _ r

theorem keeps_typoIter (pn fn : Nat) (l : List String) (r : ValidationResult) :
    Keeps r (typoIter pn fn l r) := by
  induction l generalizing r with
  | nil => exact keeps_refl r
  | cons p rest ih => exact keeps_trans (keeps_typoStep pn fn p r) (ih _)

theorem keeps_patsEntryStep (pn fn k : Nat) (pat : PatternEntry) (r : ValidationResult) :
    Keeps r (patsEntryStep pn fn k pat r) := by
  simp only [patsEntryStep]
  split
  · split
    · exact keeps_trans (keeps_pushErr _ r) (keeps_pushErr _ _)
    · exact keeps_pushErr _ r
  · split
    · exact keeps_pushErr _ r
    · exact keeps_refl r

theorem keeps_patsIter (pn fn : Nat) (pats : List PatternEntry) (k : Nat)
    (r : ValidationResult) : Keeps r (patsIter pn fn k pats r) := by
  induction pats generalizing k r with
  | nil => exact keeps_refl r
  | cons pat rest ih =>
      exact keeps_trans (keeps_patsEntryStep pn fn (k + 1) pat r) (ih _ _)

theorem keeps_mergeDryRun (pn fn : Nat) (d : DryRunResult) (r : ValidationResult) :
    Keeps r (mergeDryRun pn fn d r) := by
  simp only [mergeDryRun]
  split
  · exact ⟨fun e he => by simp; exact Or.inl he, fun _ => by simp⟩
  · exact ⟨fun e he => by simp [pushSugg]; exact Or.inl he, fun hf => by simp [pushSugg, hf]⟩

theorem keeps_fileRulePath (pn fn : Nat) (fc : FileConfig) (r : ValidationResult) :
    Keeps r (fileRulePath pn fn fc r) := by
  unfold fileRulePath
  split
  · exact keeps_pushErr _ r
  · exact keeps_refl r

theorem keeps_fileRuleFormat (pn fn : Nat) (fc : FileConfig) (r : ValidationResult) :
    Keeps r (fileRuleFormat pn fn fc r) := by
  unfold fileRuleFormat
  split
  · exact keeps_pushErr _ r
  · exact keeps_refl r

theorem keeps_fileRulePats (pn fn : Nat) (fc : FileConfig) (r : ValidationResult) :
    Keeps r (fileRulePats pn fn fc r) := by
  unfold fileRulePats
  split
  · exact keeps_patsIter pn fn _ 0 r
  · exact keeps_refl r

theorem keeps_fileRuleDry (fs : FS) (pn fn : Nat) (fc : FileConfig) (r : ValidationResult) :
    Keeps r (fileRuleDry fs pn fn fc r) := by
  unfold fileRuleDry
  split
  · exact keeps_mergeDryRun pn fn _ r
  · exact keeps_refl r

theorem keeps_validateFileRule (fs : FS) (pn fn : Nat) (fc : FileConfig)
    (r : ValidationResult) : Keeps r (validateFileRule fs pn fn fc r) :=
  keeps_trans (keeps_fileRulePath pn fn fc r)
    (keeps_trans (keeps_typoIter pn fn fc.extraProps _)
      (keeps_trans (keeps_fileRuleFormat pn fn fc _)
        (keeps_trans (keeps_fileRulePats pn fn fc _)
          (keeps_fileRuleDry fs pn fn fc _))))

theorem keeps_filesIter (fs : FS) (pn : Nat) (fcs : List FileConfig) (j : Nat)
    (r : ValidationResult) : Keeps r (filesIter fs pn j fcs r) := by
  induction fcs generalizing j r with
  | nil => exact keeps_refl r
  | cons fc rest ih =>
      exact keeps_trans (keeps_validateFileRule fs pn (j + 1) fc r) (ih _ _)

theorem keeps_uvStep (fs : FS) (pn : Nat) (p : Plugin) (r : ValidationResult) :
    Keeps r (uvStep fs pn p r) := by
  unfold uvStep
  split
  · split
    · exact keeps_refl r
    · exact keeps_pushErr _ r
    · exact keeps_filesIter fs pn _ 0 r
  · exact keeps_refl r

theorem keeps_uvIter (fs : FS) (ps : List Plugin) (i : Nat) (r : ValidationResult) :
    Keeps r (uvIter fs i ps r) := by
  induction ps generalizing i r with
  | nil => exact keeps_refl r
  | cons p rest ih => exact keeps_trans (keeps_uvStep fs (i + 1) p r) (ih _ _)

theorem keeps_summaryApply (cfg : Config) (r : ValidationResult) :
    Keeps r (summaryApply cfg r) :=
  ⟨fun _ he => he, fun hf => hf⟩

theorem keeps_verboseSugg (cond : ValidationResult → Bool) (m : String)
    (r : ValidationResult) : Keeps r (verboseSugg cond m r) := by
  unfold verboseSugg
  split
  · exact keeps_pushSugg _ r
  · exact keeps_refl r

theorem keeps_verboseStep (r : ValidationResult) : Keeps r (verboseStep r) :=
  keeps_trans (keeps_verboseSugg _ _ r)
    (keeps_trans (keeps_verboseSugg _ _ _)
      (keeps_trans (keeps_verboseSugg _ _ _) (keeps_verboseSugg _ _ _)))

theorem keeps_verboseApply (o : ValidateOptions) (r : ValidationResult) :
    Keeps r (verboseApply o r) := by
  unfold verboseApply
  split
  · exact keeps_verboseStep r
  · exact keeps_refl r

theorem keeps_strictApply (o : ValidateOptions) (r : ValidationResult) :
    Keeps r (strictApply o r) := by
  unfold strictApply
  split
  · exact ⟨fun e he => he, fun _ => by simp⟩
  · exact keeps_refl r

/-- Splitting the update-version plugin loop. -/
theorem uvIter_append (fs : FS) (l₁ l₂ : List Plugin) (i : Nat) (r : ValidationResult) :
    uvIter fs i (l₁ ++ l₂) r = uvIter fs (i + l₁.length) l₂ (uvIter fs i l₁ r) := by
  induction l₁ generalizing i r with
  | nil => simp [uvIter]
  | cons p rest ih =>
      simp only [List.cons_append, uvIter, List.length_cons, List.append_eq]
      rw [ih]
      congr 1
      omega

/-- Splitting the file loop. -/
theorem filesIter_append (fs : FS) (pn : Nat) (f₁ f₂ : List FileConfig) (j : Nat)
    (r : ValidationResult) :
    filesIter fs pn j (f₁ ++ f₂) r = filesIter fs pn (j + f₁.length) f₂ (filesIter fs pn j f₁ r) := by
  induction f₁ generalizing j r with
  | nil => simp [filesIter]
  | cons fc rest ih =>
      simp only [List.cons_append, filesIter, List.length_cons, List.append_eq]
      rw [ih]
      congr 1
      omega

/-- Reaching one file rule inside `validateConfig`: when `checkPlugins` is on,
the plugins list is an array whose update-version filtrate has the given
plugin at position `l₁.length`, and that plugin's `files` array has `fc` at
position `f₁.length`, the final result is the given file rule's output
(started from some intermediate result) pushed through the remaining,
error-keeping stages. -/
theorem validateConfig_reach (rm : String → Option ConfigValue) (fs : FS) (cfg : Config)
    (o : ValidateOptions) (ps l₁ l₂ : List Plugin) (h : Option String) (opts : PluginOpts)
    (f₁ f₂ : List FileConfig) (fc : FileConfig)
    (hcp : o.checkPlugins = true)
    (hps : cfg.plugins = .arr ps)
    (hfil : ps.filter (fun p => isUpdateVersionEntry p) = l₁ ++ Plugin.arr h (some opts) :: l₂)
    (hfiles : opts.files = .arr (f₁ ++ fc :: f₂)) :
    ∃ r0, validateConfig rm fs (.value (.obj cfg)) o =
      strictApply o (verboseApply o (summaryApply cfg
        (uvIter fs (l₁.length + 1) l₂
          (filesIter fs (l₁.length + 1) (f₁.length + 1) f₂
            (validateFileRule fs (l₁.length + 1) (f₁.length + 1) fc r0))))) := by
  refine ⟨filesIter fs (l₁.length + 1) 0 f₁
    (uvIter fs 0 l₁
      (npmSuggestStep ps (requiredWarnStep (ps.map pluginHead)
        (pluginsCheck cfg (branchesCheck cfg {}))))), ?_⟩
  unfold validateConfig validateObj validateObjCore pluginsBlockApply
  rw [hcp]
  simp only [if_pos rfl]
  unfold pluginsBlockStep
  rw [hps]
  simp only []
  rw [hfil, uvIter_append]
  simp only [uvIter, Nat.zero_add]
  unfold uvStep
  simp only []
  rw [hfiles]
  simp only []
  rw [filesIter_append]
  simp only [filesIter, Nat.zero_add, if_true]

theorem keeps_pluginsBlockStep (fs : FS) (cfg : Config) (r : ValidationResult) :
    Keeps r (pluginsBlockStep fs cfg r) := by
  unfold pluginsBlockStep
  split
  · exact keeps_trans (keeps_requiredWarnStep _ r)
      (keeps_trans (keeps_npmSuggestStep _ _) (keeps_uvIter fs _ 0 _))
  · exact keeps_refl r

theorem keeps_pluginsBlockApply (fs : FS) (o : ValidateOptions) (cfg : Config)
    (r : ValidationResult) : Keeps r (pluginsBlockApply fs o cfg r) := by
  unfold pluginsBlockApply
  split
  · exact keeps_pluginsBlockStep fs cfg r
  · exact keeps_refl r

/-- An unknown property in the scanned list is reported by the property loop. -/
theorem mem_typoIter (pn fn : Nat) (l : List String) (prop : String) (r : ValidationResult)
    (hmem : prop ∈ l) (hnv : validPropNames.contains prop = false) :
    msgUnknownProp pn fn prop ∈ (typoIter pn fn l r).errors := by
  induction l generalizing r with
  | nil => cases hmem
  | cons p rest ih =>
      rcases List.mem_cons.mp hmem with rfl | hmem'
      · have hnv2 : prop ∉ validPropNames := by simpa using hnv
        have hstep : msgUnknownProp pn fn prop ∈ (typoStep pn fn prop r).errors := by
          simp [typoStep, hnv2, pushErr]
        exact (keeps_typoIter pn fn rest _).1 _ hstep
      · exact ih _ hmem'

/-- An unknown property of a file rule is reported by the file-rule checks. -/
theorem mem_fileRule_typo (fs : FS) (pn fn : Nat) (fc : FileConfig) (prop : String)
    (r : ValidationResult) (hmem : prop ∈ fc.extraProps)
    (hnv : validPropNames.contains prop = false) :
    msgUnknownProp pn fn prop ∈ (validateFileRule fs pn fn fc r).errors := by
  unfold validateFileRule
  exact (keeps_fileRuleDry fs pn fn fc _).1 _
    ((keeps_fileRulePats pn fn fc _).1 _
      ((keeps_fileRuleFormat pn fn fc _).1 _
        (mem_typoIter pn fn fc.extraProps prop _ hmem hnv)))

/-- A file rule with neither shape is reported by the file-rule checks. -/
theorem mem_fileRule_format (fs : FS) (pn fn : Nat) (fc : FileConfig)
    (r : ValidationResult) (hP : fc.patterns.isArr = false)
    (hS : (patTruthy fc.pattern && optStrTruthy fc.replacement) = false) :
    msgFormat pn fn ∈ (validateFileRule fs pn fn fc r).errors := by
  unfold validateFileRule
  refine (keeps_fileRuleDry fs pn fn fc _).1 _
    ((keeps_fileRulePats pn fn fc _).1 _ ?_)
  simp [fileRuleFormat, hP, hS, pushErr]

/-- When the dry run of a reachable rule fails, its error messages survive
into the file-rule output and that output is invalid. -/
theorem fileRule_dry_invalid (fs : FS) (pn fn : Nat) (fc : FileConfig)
    (r : ValidationResult) (hpath : optStrTruthy fc.path = true)
    (hshape : (fc.patterns.isArr || (patTruthy fc.pattern && optStrTruthy fc.replacement)) = true)
    (hfail : (validateUpdateVersionDryRun fs fc pn fn).2.success = false) :
    (∀ e, e ∈ (validateUpdateVersionDryRun fs fc pn fn).2.errors →
      e ∈ (validateFileRule fs pn fn fc r).errors) ∧
    (validateFileRule fs pn fn fc r).isValid = false := by
  unfold validateFileRule fileRuleDry
  rw [hpath, hshape]
  constructor
  · intro e he
    simp [mergeDryRun, hfail]
    exact Or.inr he
  · simp [mergeDryRun, hfail]

/-- Counterexample to C1 as stated: a file rule carrying BOTH the simple
shape and the patterns array passes validation with an empty error list (the
shape check only fires when neither shape is present). -/
theorem validateConfig_both_shapes_accepted :
    bothShapesRule.patterns.isArr = true ∧
    patTruthy bothShapesRule.pattern = true ∧
    optStrTruthy bothShapesRule.replacement = true ∧
    (validateConfig noRequire bothShapesFS (.value (.obj bothShapesConfig)) {}).errors = [] ∧
    (validateConfig noRequire bothShapesFS (.value (.obj bothShapesConfig)) {}).isValid = true := by
  refine ⟨by decide, by decide, by decide, by decide, by decide⟩

/-- C1 (amended): for every reachable file rule that has NEITHER the simple
shape nor a patterns array, validation reports the structural shape error; a
rule carrying both shapes is accepted, the patterns array taking precedence. -/
theorem validateConfig_neither_shape_error (rm : String → Option ConfigValue) (fs : FS)
    (cfg : Config) (o : ValidateOptions) (ps l₁ l₂ : List Plugin) (h : Option String)
    (opts : PluginOpts) (f₁ f₂ : List FileConfig) (fc : FileConfig)
    (hcp : o.checkPlugins = true)
    (hps : cfg.plugins = .arr ps)
    (hfil : ps.filter (fun p => isUpdateVersionEntry p) = l₁ ++ Plugin.arr h (some opts) :: l₂)
    (hfiles : opts.files = .arr (f₁ ++ fc :: f₂))
    (hP : fc.patterns.isArr = false)
    (hS : (patTruthy fc.pattern && optStrTruthy fc.replacement) = false) :
    msgFormat (l₁.length + 1) (f₁.length + 1) ∈
      (validateConfig rm fs (.value (.obj cfg)) o).errors := by
  obtain ⟨r0, hr⟩ := validateConfig_reach rm fs cfg o ps l₁ l₂ h opts f₁ f₂ fc hcp hps hfil hfiles
  rw [hr]
  exact (keeps_strictApply o _).1 _
    ((keeps_verboseApply o _).1 _
      ((keeps_summaryApply cfg _).1 _
        ((keeps_uvIter fs l₂ _ _).1 _
          ((keeps_filesIter fs _ f₂ _ _).1 _
            (mem_fileRule_format fs _ _ fc r0 hP hS)))))

/-- Witness for the amended C1 at a concrete configuration whose single rule
has neither shape. -/
theorem validateConfig_neither_shape_error_witness :
    neitherRule.patterns.isArr = false ∧
    (patTruthy neitherRule.pattern && optStrTruthy neitherRule.replacement) = false ∧
    msgFormat 1 1 ∈ (validateConfig noRequire emptyFS (.value (.obj neitherConfig)) {}).errors :=
  ⟨by decide, by decide,
   validateConfig_neither_shape_error noRequire emptyFS neitherConfig {}
     [Plugin.arr (some "update-version.js") (some { files := .arr [neitherRule] })]
     [] [] (some "update-version.js") { files := .arr [neitherRule] } [] [] neitherRule
     (by decide) rfl (by decide) rfl (by decide) (by decide)⟩

/-- C4: a dry-run that hits a missing target file reports the not-found error
and fails; and for every reachable file rule whose dry-run fails, all dry-run
error messages are merged into the overall error list and the whole
validation result is invalid. -/
theorem validateConfig_dry_run_failure_invalidates :
    (∀ (fs : FS) (fc : FileConfig) (pn fn : Nat), fs (fc.path.getD "") = none →
      (validateUpdateVersionDryRun fs fc pn fn).2 =
        { success := false, errors := [msgNotFound pn fn (fc.path.getD "")],
          warnings := [], replacements := 0 }) ∧
    (∀ (rm : String → Option ConfigValue) (fs : FS) (cfg : Config) (o : ValidateOptions)
       (ps l₁ l₂ : List Plugin) (h : Option String) (opts : PluginOpts)
       (f₁ f₂ : List FileConfig) (fc : FileConfig),
      o.checkPlugins = true →
      cfg.plugins = .arr ps →
      ps.filter (fun p => isUpdateVersionEntry p) = l₁ ++ Plugin.arr h (some opts) :: l₂ →
      opts.files = .arr (f₁ ++ fc :: f₂) →
      optStrTruthy fc.path = true →
      (fc.patterns.isArr || (patTruthy fc.pattern && optStrTruthy fc.replacement)) = true →
      (validateUpdateVersionDryRun fs fc (l₁.length + 1) (f₁.length + 1)).2.success = false →
      (∀ e, e ∈ (validateUpdateVersionDryRun fs fc (l₁.length + 1) (f₁.length + 1)).2.errors →
        e ∈ (validateConfig rm fs (.value (.obj cfg)) o).errors) ∧
      (validateConfig rm fs (.value (.obj cfg)) o).isValid = false) := by
  constructor
  · intro fs fc pn fn h
    unfold validateUpdateVersionDryRun
    simp [fsExistsSync, h]
  · intro rm fs cfg o ps l₁ l₂ h opts f₁ f₂ fc hcp hps hfil hfiles hpath hshape hfail
    obtain ⟨r0, hr⟩ := validateConfig_reach rm fs cfg o ps l₁ l₂ h opts f₁ f₂ fc hcp hps hfil hfiles
    have hfr := fileRule_dry_invalid fs (l₁.length + 1) (f₁.length + 1) fc r0 hpath hshape hfail
    have hk : Keeps (validateFileRule fs (l₁.length + 1) (f₁.length + 1) fc r0)
        (validateConfig rm fs (.value (.obj cfg)) o) := by
      rw [hr]
      exact keeps_trans (keeps_filesIter fs _ f₂ _ _)
        (keeps_trans (keeps_uvIter fs l₂ _ _)
          (keeps_trans (keeps_summaryApply cfg _)
            (keeps_trans (keeps_verboseApply o _) (keeps_strictApply o _))))
    exact ⟨fun e he => hk.1 e (hfr.1 e he), hk.2 hfr.2⟩

/-- Witness for C4 at a concrete configuration whose single rule targets a
missing file on the empty filesystem. -/
theorem validateConfig_dry_run_failure_invalidates_witness :
    emptyFS (missRule.path.getD "") = none ∧
    (validateUpdateVersionDryRun emptyFS missRule 1 1).2 =
      { success := false, errors := [msgNotFound 1 1 (missRule.path.getD "")],
        warnings := [], replacements := 0 } ∧
    (∀ e, e ∈ (validateUpdateVersionDryRun emptyFS missRule 1 1).2.errors →
      e ∈ (validateConfig noRequire emptyFS (.value (.obj missConfig)) {}).errors) ∧
    (validateConfig noRequire emptyFS (.value (.obj missConfig)) {}).isValid = false :=
  ⟨rfl,
   validateConfig_dry_run_failure_invalidates.1 emptyFS missRule 1 1 rfl,
   (validateConfig_dry_run_failure_invalidates.2 noRequire emptyFS missConfig {}
     [Plugin.arr (some "update-version.js") (some { files := .arr [missRule] })]
     [] [] (some "update-version.js") { files := .arr [missRule] } [] [] missRule
     (by decide) rfl (by decide) rfl (by decide) (by decide) (by decide)).1,
   (validateConfig_dry_run_failure_invalidates.2 noRequire emptyFS missConfig {}
     [Plugin.arr (some "update-version.js") (some { files := .arr [missRule] })]
     [] [] (some "update-version.js") { files := .arr [missRule] } [] [] missRule
     (by decide) rfl (by decide) rfl (by decide) (by decide) (by decide)).2⟩

/-- C6: every unknown property name of a reachable file rule is reported as
an error, whose typo suggestion comes from substring matching of the valid
names inside the unknown name; in particular `pathss` suggests exactly
`path`. -/
theorem validateConfig_unknown_prop_error :
    (∀ (rm : String → Option ConfigValue) (fs : FS) (cfg : Config) (o : ValidateOptions)
       (ps l₁ l₂ : List Plugin) (h : Option String) (opts : PluginOpts)
       (f₁ f₂ : List FileConfig) (fc : FileConfig) (prop : String),
      o.checkPlugins = true →
      cfg.plugins = .arr ps →
      ps.filter (fun p => isUpdateVersionEntry p) = l₁ ++ Plugin.arr h (some opts) :: l₂ →
      opts.files = .arr (f₁ ++ fc :: f₂) →
      prop ∈ fc.extraProps →
      validPropNames.contains prop = false →
      msgUnknownProp (l₁.length + 1) (f₁.length + 1) prop ∈
        (validateConfig rm fs (.value (.obj cfg)) o).errors) ∧
    typoSuggestionList "pathss" = ["path"] ∧
    typoSuggestionText "pathss" = " Did you mean: path?" ∧
    strContains (msgUnknownProp 1 1 "pathss") "Did you mean: path?" = true := by
  refine ⟨?_, by decide, by decide, by decide⟩
  intro rm fs cfg o ps l₁ l₂ h opts f₁ f₂ fc prop hcp hps hfil hfiles hmem hnv
  obtain ⟨r0, hr⟩ := validateConfig_reach rm fs cfg o ps l₁ l₂ h opts f₁ f₂ fc hcp hps hfil hfiles
  rw [hr]
  exact (keeps_strictApply o _).1 _
    ((keeps_verboseApply o _).1 _
      ((keeps_summaryApply cfg _).1 _
        ((keeps_uvIter fs l₂ _ _).1 _
          ((keeps_filesIter fs _ f₂ _ _).1 _
            (mem_fileRule_typo fs _ _ fc prop r0 hmem hnv)))))

/-- Witness for C6 at a concrete configuration whose single rule carries the
unknown property `pathss`. -/
theorem validateConfig_unknown_prop_error_witness :
    "pathss" ∈ typoRule.extraProps ∧
    validPropNames.contains "pathss" = false ∧
    msgUnknownProp 1 1 "pathss" ∈
      (validateConfig noRequire emptyFS (.value (.obj typoConfig)) {}).errors :=
  ⟨by decide, by decide,
   validateConfig_unknown_prop_error.1 noRequire emptyFS typoConfig {}
     [Plugin.arr (some "update-version.js") (some { files := .arr [typoRule] })]
     [] [] (some "update-version.js") { files := .arr [typoRule] } [] [] typoRule "pathss"
     (by decide) rfl (by decide) rfl (by decide) (by decide)⟩

/-- C7: a configuration without a `plugins` field validates to an invalid
result whose error list holds a message mentioning `plugins`. -/
theorem validateConfig_missing_plugins_invalid (rm : String → Option ConfigValue) (fs : FS)
    (cfg : Config) (o : ValidateOptions) (hp : cfg.plugins = .absent) :
    (validateConfig rm fs (.value (.obj cfg)) o).isValid = false ∧
    "No plugins specified" ∈ (validateConfig rm fs (.value (.obj cfg)) o).errors ∧
    strContains "No plugins specified" "plugins" = true := by
  have hpc : "No plugins specified" ∈ (pluginsCheck cfg (branchesCheck cfg {})).errors ∧
      (pluginsCheck cfg (branchesCheck cfg {})).isValid = false := by
    constructor
    · simp [pluginsCheck, hp, pushErr]
    · simp [pluginsCheck, hp, pushErr]
  have hk : Keeps (pluginsCheck cfg (branchesCheck cfg {}))
      (validateConfig rm fs (.value (.obj cfg)) o) := by
    unfold validateConfig validateObj validateObjCore
    exact keeps_trans (keeps_pluginsBlockApply fs o cfg _)
      (keeps_trans (keeps_summaryApply cfg _)
        (keeps_trans (keeps_verboseApply o _) (keeps_strictApply o _)))
  exact ⟨hk.2 hpc.2, hk.1 _ hpc.1, by decide⟩

/-- Witness for C7 at a concrete configuration without `plugins`. -/
theorem validateConfig_missing_plugins_invalid_witness :
    noPluginsConfig.plugins = .absent ∧
    (validateConfig noRequire emptyFS (.value (.obj noPluginsConfig)) {}).isValid = false ∧
    "No plugins specified" ∈
      (validateConfig noRequire emptyFS (.value (.obj noPluginsConfig)) {}).errors :=
  ⟨rfl,
   (validateConfig_missing_plugins_invalid noRequire emptyFS noPluginsConfig {} rfl).1,
   (validateConfig_missing_plugins_invalid noRequire emptyFS noPluginsConfig {} rfl).2.1⟩

/-! Projection lemmas for the detector stages that do not touch the test
fields. -/

theorem rcBranches_runTests (rc : String → Option RcFile) (c : DetectedConfig) :
    (rcBranches rc c).runTests = c.runTests := by
  unfold rcBranches
  split
  · split
    · rfl
    · rfl
  · rfl

theorem rcBranches_testCommand (rc : String → Option RcFile) (c : DetectedConfig) :
    (rcBranches rc c).testCommand = c.testCommand := by
  unfold rcBranches
  split
  · split
    · rfl
    · rfl
  · rfl

theorem auxScriptsDetect_runTests (scr : List (String × String)) (c : DetectedConfig) :
    (auxScriptsDetect scr c).runTests = c.runTests := rfl

theorem auxScriptsDetect_testCommand (scr : List (String × String)) (c : DetectedConfig) :
    (auxScriptsDetect scr c).testCommand = c.testCommand := rfl

theorem buildDetect_runTests (scr : List (String × String)) (c : DetectedConfig) :
    (buildDetect scr c).runTests = c.runTests := by
  unfold buildDetect
  split
  · rfl
  · split
    · rfl
    · split
      · rfl
      · rfl

theorem buildDetect_testCommand (scr : List (String × String)) (c : DetectedConfig) :
    (buildDetect scr c).testCommand = c.testCommand := by
  unfold buildDetect
  split
  · rfl
  · split
    · rfl
    · split
      · rfl
      · rfl

theorem npmPackageDetect_runTests (p : PackageJson) (c : DetectedConfig) :
    (npmPackageDetect p c).runTests = c.runTests := rfl

theorem npmPackageDetect_testCommand (p : PackageJson) (c : DetectedConfig) :
    (npmPackageDetect p c).testCommand = c.testCommand := rfl

theorem nodeVersionDetect_runTests (p : PackageJson) (c : DetectedConfig) :
    (nodeVersionDetect p c).runTests = c.runTests := by
  unfold nodeVersionDetect
  split
  · split
    · split
      · rfl
      · split
        · rfl
        · rfl
    · rfl
  · rfl

theorem nodeVersionDetect_testCommand (p : PackageJson) (c : DetectedConfig) :
    (nodeVersionDetect p c).testCommand = c.testCommand := by
  unfold nodeVersionDetect
  split
  · split
    · split
      · rfl
      · split
        · rfl
        · rfl
    · rfl
  · rfl

theorem frameworkFallback_of_true (scr : List (String × String)) (c : DetectedConfig)
    (h : c.runTests = true) : frameworkFallback scr c = c := by
  unfold frameworkFallback
  simp [h]

theorem frameworkFallback_of_none (scr : List (String × String)) (c : DetectedConfig)
    (hj : scriptTruthy scr "jest" = false) (hm : scriptTruthy scr "mocha" = false)
    (hv : scriptTruthy scr "vitest" = false) : frameworkFallback scr c = c := by
  unfold frameworkFallback
  simp [hj, hm, hv]

/-- C9: a project whose `scripts.test` is `"jest"` with a truthy `jest`
devDependency (and no CI-specific test scripts) detects `runTests = true`
with `npm test` as the test command; a project whose `scripts.test` is the
npm placeholder (or contains `no test specified`), with no framework-named
scripts, detects `runTests = false`. -/
theorem detect_test_configuration :
    (∀ (p : PackageJson) (scr dd : List (String × String)) (rc : String → Option RcFile),
      p.scripts = some scr →
      p.devDependencies = some dd →
      scr.lookup "test" = some "jest" →
      devDepTruthy dd "jest" = true →
      scriptTruthy scr "test:ci" = false →
      scriptTruthy scr "test:prod" = false →
      scriptTruthy scr "test:production" = false →
      (detectUserConfiguration (some p) rc).runTests = true ∧
      (detectUserConfiguration (some p) rc).testCommand = some "npm test") ∧
    (∀ (p : PackageJson) (scr : List (String × String)) (rc : String → Option RcFile)
       (t : String),
      p.scripts = some scr →
      scr.lookup "test" = some t →
      (t = npmPlaceholderTest ∨ strContains t "no test specified" = true) →
      scriptTruthy scr "test:ci" = false →
      scriptTruthy scr "test:prod" = false →
      scriptTruthy scr "test:production" = false →
      scriptTruthy scr "jest" = false →
      scriptTruthy scr "mocha" = false →
      scriptTruthy scr "vitest" = false →
      (detectUserConfiguration (some p) rc).runTests = false) := by
  constructor
  · intro p scr dd rc hscr hdd htest hjest hci hprod hprodn
    have hfw : hasTestFrameworkB p scr = true := by
      unfold hasTestFrameworkB
      rw [hdd]
      simp [testFrameworkDevDeps, hjest]
    have hcond : (("jest" : String) ≠ "" && "jest" ≠ npmPlaceholderTest && "jest" ≠ "exit 1" &&
        strContains "jest" "no test specified" = false) = true := by decide
    have hdt : ∀ c : DetectedConfig, detectTests p scr c =
        { c with runTests := true, testCommand := some "npm test" } := by
      intro c
      unfold detectTests
      rw [hci]
      rw [if_neg (by simp)]
      rw [hprod, hprodn]
      rw [if_neg (by simp)]
      rw [htest]
      simp only []
      rw [if_pos hcond, if_pos hfw]
    simp only [detectUserConfiguration]
    rw [hscr]
    simp only []
    rw [hdt]
    constructor
    · rw [rcBranches_runTests, auxScriptsDetect_runTests, buildDetect_runTests,
        frameworkFallback_of_true]
      rfl
    · rw [rcBranches_testCommand, auxScriptsDetect_testCommand, buildDetect_testCommand,
        frameworkFallback_of_true]
      rfl
  · intro p scr rc t hscr htest hph hci hprod hprodn hj hm hv
    have hcontains : strContains t "no test specified" = true := by
      rcases hph with rfl | hph
      · decide
      · exact hph
    have hdt : ∀ c : DetectedConfig, detectTests p scr c = c := by
      intro c
      unfold detectTests
      rw [hci]
      rw [if_neg (by simp)]
      rw [hprod, hprodn]
      rw [if_neg (by simp)]
      rw [htest]
      simp only []
      rw [if_neg (by simp [hcontains])]
    simp only [detectUserConfiguration]
    rw [hscr]
    simp only []
    rw [hdt, frameworkFallback_of_none scr _ hj hm hv]
    rw [rcBranches_runTests, auxScriptsDetect_runTests, buildDetect_runTests,
      nodeVersionDetect_runTests, npmPackageDetect_runTests]

/-- Witness for C9 on the two concrete projects of the claim. -/
theorem detect_test_configuration_witness :
    (detectUserConfiguration (some pkgJest) noRc).runTests = true ∧
    (detectUserConfiguration (some pkgJest) noRc).testCommand = some "npm test" ∧
    (detectUserConfiguration (some pkgPlaceholder) noRc).runTests = false :=
  ⟨(detect_test_configuration.1 pkgJest [("test", "jest")] [("jest", "^29.0.0")] noRc
      rfl rfl (by decide) (by decide) (by decide) (by decide) (by decide)).1,
   (detect_test_configuration.1 pkgJest [("test", "jest")] [("jest", "^29.0.0")] noRc
      rfl rfl (by decide) (by decide) (by decide) (by decide) (by decide)).2,
   detect_test_configuration.2 pkgPlaceholder [("test", npmPlaceholderTest)] noRc
     npmPlaceholderTest rfl (by decide) (Or.inl rfl) (by decide) (by decide) (by decide)
     (by decide) (by decide) (by decide)⟩
